import Mathlib

/-!
# Serial dataflash driver (`driver/dataflash.c`): embedding and verified properties

The C driver talks to a SPI flash part through five bus primitives
(`at91_spi_cs_activate`, `at91_spi_cs_deactivate`, `at91_spi_read_sr`,
`at91_spi_write_data`, `at91_spi_read_spi`).  They are modelled as operations on
an explicit bus state that records every primitive in a chronological trace and
answers each receive-register read from a stream of device responses.

Machine integers are natural numbers; `unsigned int` arithmetic is reduced
modulo `2 ^ 32` and a store into an `unsigned char` modulo `256`.  Return codes
are integers (`0` success, non-zero failure).  A pointer is an `Option`:
`none` is `NULL`, `some l` points at the bytes `l`.
-/

namespace Dataflash

/-! ## Constants (lines 40-105) -/

def CMD_READ_DEV_ID : Nat := 0x9f
def CMD_READ_ARRAY_FAST : Nat := 0x0b

def MANUFACTURER_ID_ATMEL : Nat := 0x1f
def MANUFACTURER_ID_SPANSION : Nat := 0x01
def MANUFACTURER_ID_MICRON : Nat := 0x20

def DF_FAMILY_AT26F : Nat := 0x00
def DF_FAMILY_AT45 : Nat := 0x20
def DF_FAMILY_AT26DF : Nat := 0x40
def DF_FAMILY_S25FL512S : Nat := 0x02
def DF_FAMILY_N25Q : Nat := 0xBA

def DENSITY_AT45DB011D : Nat := 0x0C
def DENSITY_AT45DB021D : Nat := 0x14
def DENSITY_AT45DB041D : Nat := 0x1C
def DENSITY_AT45DB081D : Nat := 0x24
def DENSITY_AT45DB161D : Nat := 0x2C
def DENSITY_AT45DB321D : Nat := 0x34
def DENSITY_AT45DB642D : Nat := 0x3C

def CMD_READ_STATUS_AT45 : Nat := 0xd7
def STATUS_PAGE_SIZE_AT45 : Nat := 1 <<< 0

/-! ## The SPI bus -/

/-- One primitive bus operation, as observed on the wire. `readSpi v` is a
read of the receive register that returned `v`. -/
inductive BusOp where
  | csActivate
  | csDeactivate
  | readSr
  | writeData (b : Nat)
  | readSpi (v : Nat)
  deriving DecidableEq, Repr

/-- Bus state: `rx n` is the value the receive register yields on the `n`-th
read since the start, `nread` counts the reads made so far and `trace` lists
the primitives performed so far, oldest first. -/
structure Spi where
  rx : Nat → Nat
  nread : Nat
  trace : List BusOp

/-- Modelled from the spec: `at91_spi_cs_activate` (spi.h), chip-select
activation; it only shows on the trace. -/
def at91_spi_cs_activate (s : Spi) : Spi :=
  { s with trace := s.trace ++ [BusOp.csActivate] }

/-- Modelled from the spec: `at91_spi_cs_deactivate` (spi.h), chip-select
deactivation; it only shows on the trace. -/
def at91_spi_cs_deactivate (s : Spi) : Spi :=
  { s with trace := s.trace ++ [BusOp.csDeactivate] }

/-- Modelled from the spec: `at91_spi_read_sr` (spi.h), the status-register
peek that clears pending bus status; the driver discards its value. -/
def at91_spi_read_sr (s : Spi) : Spi :=
  { s with trace := s.trace ++ [BusOp.readSr] }

/-- Modelled from the spec: `at91_spi_write_data` (spi.h), shifting one byte
out. -/
def at91_spi_write_data (b : Nat) (s : Spi) : Spi :=
  { s with trace := s.trace ++ [BusOp.writeData b] }

/-- Modelled from the spec: `at91_spi_read_spi` (spi.h), fetching the value
shifted in; the device's answer is the next element of the response stream. -/
def at91_spi_read_spi (s : Spi) : Nat × Spi :=
  (s.rx s.nread,
   { s with nread := s.nread + 1, trace := s.trace ++ [BusOp.readSpi (s.rx s.nread)] })

/-! ## The descriptor (lines 109-116) -/

structure dataflash_descriptor where
  family : Nat
  pages : Nat
  page_size : Nat
  page_offset : Nat
  is_power_2 : Nat
  deriving DecidableEq, Repr

/-! ## `df_send_command` (lines 118-153) -/

/-- The loop of lines 140-143: `n` iterations, each writing `*cmd++` and
reading (and dropping) the byte shifted in. Every caller passes the length of
the array it points at; a read past its end (undefined in C) shows as `0`. -/
def cmdLoop : Nat → List Nat → Spi → Spi
  | 0, _, s => s
  | n + 1, cmd, s =>
      cmdLoop n cmd.tail (at91_spi_read_spi (at91_spi_write_data (cmd.headD 0) s)).2

/-- The loop of lines 145-148: `n` iterations, each writing `0` and storing the
byte shifted in through `*data++` (an `unsigned char` store). Returns the
buffer contents afterwards: the `n` bytes stored, then what the buffer held
beyond them. The C counter is an `int` compared with the unsigned `data_len`,
which counts `data_len` iterations for every length below `2 ^ 31`. -/
def dataLoop : Nat → List Nat → Spi → List Nat × Spi
  | 0, data, s => (data, s)
  | n + 1, data, s =>
      let r := at91_spi_read_spi (at91_spi_write_data 0 s)
      let rest := dataLoop n data.tail r.2
      ((r.1 % 256) :: rest.1, rest.2)

/-- Lines 118-153. Result: return code, the data buffer afterwards, the bus
afterwards. The three early returns come before any bus primitive. -/
def df_send_command (cmd : Option (List Nat)) (cmd_len : Nat)
    (data : Option (List Nat)) (data_len : Nat) (s : Spi) :
    Int × Option (List Nat) × Spi :=
  match cmd with
  | none => (-1, data, s)
  | some c =>
    if cmd_len = 0 then (-1, data, s)
    else if data_len ≠ 0 ∧ data = none then (-1, data, s)
    else
      let s1 := at91_spi_cs_activate s
      let s2 := at91_spi_read_sr s1
      let s3 := cmdLoop cmd_len c s2
      let d := dataLoop data_len (data.getD []) s3
      let s4 := at91_spi_cs_deactivate d.2
      (0, if data_len = 0 then data else some d.1, s4)

/-! ## `dataflash_read_array` (lines 155-213) -/

/-- Modelled from the spec: `division` (div.h), which the array reader uses to
split an offset into `page_index = offset / page_size` and
`byte_in_page = offset % page_size` (integer division and remainder). -/
def spec_division (dividend divisor : Nat) : Nat × Nat :=
  (dividend / divisor, dividend % divisor)

/-- What the spec says of `division`: for a non-zero divisor the two results
are the integer quotient and remainder. It says nothing for a zero divisor. -/
def DivisionSpec (division : Nat → Nat → Nat × Nat) : Prop :=
  ∀ a b, 0 < b → division a b = (a / b, a % b)

/-- Lines 169-177: the physical address, in `unsigned int` arithmetic. The
helper `division` (div.h) is a parameter; its result is the pair of values it
leaves in `page_addr` and `byte_addr`. -/
def read_address (division : Nat → Nat → Nat × Nat) (df_desc : dataflash_descriptor)
    (offset : Nat) : Nat :=
  if df_desc.is_power_2 = 0 then
    let page_shift := df_desc.page_offset
    let page_size := df_desc.page_size
    let qr := division offset page_size
    (((qr.1 <<< page_shift) % 2 ^ 32) + qr.2) % 2 ^ 32
  else
    offset

/-- Lines 179-208: the five command bytes built from the physical address. -/
def read_cmd (df_desc : dataflash_descriptor) (address : Nat) : List Nat :=
  if df_desc.family = DF_FAMILY_S25FL512S ∨ df_desc.family = DF_FAMILY_N25Q then
    [CMD_READ_ARRAY_FAST, (address >>> 16) % 256, (address >>> 8) % 256, address % 256, 0x00]
  else if df_desc.pages > 16384 then
    [CMD_READ_ARRAY_FAST, (address >>> 24) % 256, (address >>> 16) % 256,
      (address >>> 8) % 256, address % 256]
  else
    [CMD_READ_ARRAY_FAST, (address >>> 16) % 256, (address >>> 8) % 256, address % 256, 0x00]

/-- Lines 155-213, with the helper `division` (div.h) as a parameter. -/
def dataflash_read_array (division : Nat → Nat → Nat × Nat) (df_desc : dataflash_descriptor)
    (offset len : Nat) (buf : Option (List Nat)) (s : Spi) : Int × Option (List Nat) × Spi :=
  let address := read_address division df_desc offset
  let cmd := read_cmd df_desc address
  let r := df_send_command (some cmd) 5 buf len s
  if r.1 ≠ 0 then (-1, r.2.1, r.2.2) else (0, r.2.1, r.2.2)

/-! ## Status reader (lines 239-249) -/

/-- Lines 239-249. `status` is the byte the caller's variable holds before the
call; the result carries the return code (narrowed to `unsigned char`), the
byte it holds afterwards and the bus afterwards. -/
def df_read_status_at45 (status : Nat) (s : Spi) : Int × Nat × Spi :=
  let r := df_send_command (some [CMD_READ_STATUS_AT45]) 1 (some [status]) 1 s
  let st := (r.2.1.getD []).headD status
  if r.1 ≠ 0 then (r.1 % 256, st, r.2.2) else (0, st, r.2.2)

/-! ## Geometry initialisers (lines 620-769) -/

/-- Lines 630-701: what `df_at45_desc_init` does with the status byte once it
has been read: the addressing flag from bit 0, then the `switch` on the
density bits. -/
def at45_decode (df_desc : dataflash_descriptor) (status : Nat) :
    Int × dataflash_descriptor :=
  let d :=
    if status &&& STATUS_PAGE_SIZE_AT45 ≠ 0 then { df_desc with is_power_2 := 1 }
    else { df_desc with is_power_2 := 0 }
  let density := status &&& 0x3c
  if density = DENSITY_AT45DB011D then
    (0, { d with pages := 512, page_size := 264, page_offset := 9 })
  else if density = DENSITY_AT45DB021D then
    (0, { d with pages := 1024, page_size := 264, page_offset := 9 })
  else if density = DENSITY_AT45DB041D then
    (0, { d with pages := 2048, page_size := 264, page_offset := 9 })
  else if density = DENSITY_AT45DB081D then
    (0, { d with pages := 4096, page_size := 264, page_offset := 9 })
  else if density = DENSITY_AT45DB161D then
    (0, { d with pages := 4096, page_size := 528, page_offset := 10 })
  else if density = DENSITY_AT45DB321D then
    (0, { d with pages := 8192, page_size := 528, page_offset := 10 })
  else if density = DENSITY_AT45DB642D then
    (0, { d with pages := 8192, page_size := 1056, page_offset := 11 })
  else
    (-1, d)

/-- Lines 620-702. The local `status` is indeterminate before the status read;
it is read only after a successful transfer has stored into it. -/
def df_at45_desc_init (df_desc : dataflash_descriptor) (s : Spi) :
    Int × dataflash_descriptor × Spi :=
  let r := df_read_status_at45 0 s
  if r.1 ≠ 0 then (r.1, df_desc, r.2.2)
  else
    let g := at45_decode df_desc r.2.1
    (g.1, g.2, r.2.2)

/-- Lines 704-714. -/
def df_at25_desc_init (df_desc : dataflash_descriptor) : Int × dataflash_descriptor :=
  (0, { df_desc with is_power_2 := 1, pages := 16384, page_size := 256, page_offset := 0 })

/-- Lines 715-725. -/
def df_spsn_desc_init (df_desc : dataflash_descriptor) : Int × dataflash_descriptor :=
  (0, { df_desc with is_power_2 := 1, pages := 50000, page_size := 512, page_offset := 0 })

/-- Lines 726-736. -/
def df_micron_desc_init (df_desc : dataflash_descriptor) : Int × dataflash_descriptor :=
  (0, { df_desc with is_power_2 := 1, pages := 50000, page_size := 256, page_offset := 0 })

/-- Lines 737-769. -/
def df_desc_init (df_desc : dataflash_descriptor) (family : Nat) (s : Spi) :
    Int × dataflash_descriptor × Spi :=
  let d := { df_desc with family := family }
  if d.family = DF_FAMILY_AT26F ∨ d.family = DF_FAMILY_AT26DF then
    let r := df_at25_desc_init d
    if r.1 ≠ 0 then (r.1, r.2, s) else (0, r.2, s)
  else if d.family = DF_FAMILY_AT45 then
    let r := df_at45_desc_init d s
    if r.1 ≠ 0 then (r.1, r.2.1, r.2.2) else (0, r.2.1, r.2.2)
  else if d.family = DF_FAMILY_S25FL512S then
    let r := df_spsn_desc_init d
    if r.1 ≠ 0 then (r.1, r.2, s) else (0, r.2, s)
  else if d.family = DF_FAMILY_N25Q then
    let r := df_micron_desc_init d
    if r.1 ≠ 0 then (r.1, r.2, s) else (0, r.2, s)
  else
    (-1, d, s)

/-! ## Probe (lines 771-807) -/

/-- Lines 771-807. The local `dev_id[5]` is indeterminate before the ID read;
it is read only after a successful transfer has filled it. -/
def dataflash_probe_atmel (df_desc : dataflash_descriptor) (s : Spi) :
    Int × dataflash_descriptor × Spi :=
  let r := df_send_command (some [CMD_READ_DEV_ID]) 1 (some [0, 0, 0, 0, 0]) 5 s
  if r.1 ≠ 0 then (r.1, df_desc, r.2.2)
  else
    let dev_id := r.2.1.getD []
    let id0 := dev_id.getD 0 0
    let id1 := dev_id.getD 1 0
    if id0 ≠ MANUFACTURER_ID_ATMEL ∧ id0 ≠ MANUFACTURER_ID_SPANSION
        ∧ id0 ≠ MANUFACTURER_ID_MICRON then
      (-1, df_desc, r.2.2)
    else
      let r2 : Int × dataflash_descriptor × Spi :=
        if id0 = MANUFACTURER_ID_ATMEL then df_desc_init df_desc (id1 &&& 0xe0) r.2.2
        else if id0 = MANUFACTURER_ID_SPANSION then df_desc_init df_desc id1 r.2.2
        else if id0 = MANUFACTURER_ID_MICRON then df_desc_init df_desc id1 r.2.2
        else (r.1, df_desc, r.2.2)
      if r2.1 ≠ 0 then (r2.1, r2.2.1, r2.2.2) else (0, r2.2.1, r2.2.2)

/-! ## Recovery erase (lines 250-271 and 272-618, `CONFIG_DATAFLASH_RECOVERY`) -/

def CMD_WRITE_STATUS : Nat := 0x01
def CMD_READ_STATUS : Nat := 0x05
def CMD_WRITE_ENABLE : Nat := 0x06
def CMD_ERASE_64K : Nat := 0xd8
def CMD_FLAG_STATUS : Nat := 0x70
def STATUS_WIP : Nat := 0x01
def STATUS_READY_AT45 : Nat := 1 <<< 7

def CMD_READ_STATUS_SPSN : Nat := CMD_READ_STATUS
def STATUS_READY_SPSN : Nat := STATUS_WIP
def CMD_ERASE_SECTOR_SPSN : Nat := CMD_ERASE_64K
def CMD_WRITE_ENABLE_SPSN : Nat := CMD_WRITE_ENABLE

def CMD_READ_STATUS_MICRON : Nat := CMD_FLAG_STATUS
def STATUS_READY_MICRON : Nat := 1 <<< 7
def CMD_ERASE_SECTOR_MICRON : Nat := CMD_ERASE_64K
def CMD_WRITE_ENABLE_MICRON : Nat := CMD_WRITE_ENABLE

def CMD_ERASE_BLOCK4K_AT25 : Nat := 0x20
def CMD_WRITE_ENABLE_AT25 : Nat := 0x06
def CMD_READ_STATUS_AT25 : Nat := 0x05
def CMD_WRITE_STATUS_AT25 : Nat := 0x01
def CMD_ERASE_PAGE_AT45 : Nat := 0x81

def STATUS_READY_AT25 : Nat := 1 <<< 0
def STATUS_SWP_AT25 : Nat := 3 <<< 2
def STATUS_SPRL_AT25 : Nat := 1 <<< 7

/-- Lines 250-260; same shape as `df_read_status_at45`. -/
def df_read_status_spsn (status : Nat) (s : Spi) : Int × Nat × Spi :=
  let r := df_send_command (some [CMD_READ_STATUS_SPSN]) 1 (some [status]) 1 s
  let st := (r.2.1.getD []).headD status
  if r.1 ≠ 0 then (r.1 % 256, st, r.2.2) else (0, st, r.2.2)

/-- Lines 261-271; same shape as `df_read_status_at45`. -/
def df_read_status_micron (status : Nat) (s : Spi) : Int × Nat × Spi :=
  let r := df_send_command (some [CMD_READ_STATUS_MICRON]) 1 (some [status]) 1 s
  let st := (r.2.1.getD []).headD status
  if r.1 ≠ 0 then (r.1 % 256, st, r.2.2) else (0, st, r.2.2)

/-- Lines 291-301; same shape as `df_read_status_at45`. -/
def df_read_status_at25 (status : Nat) (s : Spi) : Int × Nat × Spi :=
  let r := df_send_command (some [CMD_READ_STATUS_AT25]) 1 (some [status]) 1 s
  let st := (r.2.1.getD []).headD status
  if r.1 ≠ 0 then (r.1 % 256, st, r.2.2) else (0, st, r.2.2)

/-- Lines 303-314. -/
def at25_cmd_write_enbale (s : Spi) : Int × Spi :=
  let r := df_send_command (some [CMD_WRITE_ENABLE_AT25]) 1 none 0 s
  if r.1 ≠ 0 then (r.1, r.2.2) else (0, r.2.2)

/-- Lines 316-329. -/
def at25_cmd_write_status_register (status : Nat) (s : Spi) : Int × Spi :=
  let r := df_send_command (some [CMD_WRITE_STATUS_AT25, status]) 2 none 0 s
  if r.1 ≠ 0 then (r.1, r.2.2) else (0, r.2.2)

/-- Lines 331-379. The local `status` is indeterminate before the first
status read. -/
def at25_unprotect (s : Spi) : Int × Spi :=
  let r := df_read_status_at25 0 s
  if r.1 ≠ 0 then (r.1, r.2.2)
  else
    let status := r.2.1
    if status &&& STATUS_SWP_AT25 = 0 then (0, r.2.2)
    else
      let l : Int × Spi :=
        if status &&& STATUS_SPRL_AT25 ≠ 0 then
          let w := at25_cmd_write_enbale r.2.2
          if w.1 ≠ 0 then w
          else
            let ws := at25_cmd_write_status_register 0 w.2
            if ws.1 ≠ 0 then ws else (0, ws.2)
        else (0, r.2.2)
      if l.1 ≠ 0 then l
      else
        let w := at25_cmd_write_enbale l.2
        if w.1 ≠ 0 then w
        else
          let ws := at25_cmd_write_status_register 0 w.2
          if ws.1 ≠ 0 then ws
          else
            let r2 := df_read_status_at25 status ws.2
            if r2.1 ≠ 0 then (r2.1, r2.2.2)
            else if r2.2.1 &&& (STATUS_SPRL_AT25 ||| STATUS_SWP_AT25) ≠ 0 then (-1, r2.2.2)
            else (0, r2.2.2)

/-- Modelled from the spec: `udelay` (timer.h), the busy-wait delay; it
performs no bus primitive. -/
def udelay (_usec : Nat) (s : Spi) : Spi := s

/-- The four `do { ... } while (--timeout);` loops (lines 410-417, 447-454,
504-511, 562-569), which differ only in the status reader and in the test that
breaks out. The first argument is `timeout` on entry, at least 1 in every
routine (a loop entered with `0` does not occur and is left as an immediate
exit). Result: the return code of a failed status read (`0` when none failed),
then `timeout`, `status` and the bus as the loop leaves them. -/
def poll_loop (read_status : Nat → Spi → Int × Nat × Spi) (is_ready : Nat → Bool) :
    Nat → Nat → Spi → Int × Nat × Nat × Spi
  | 0, status, s => (0, 0, status, s)
  | t + 1, status, s =>
      let r := read_status status s
      if r.1 ≠ 0 then (r.1, t + 1, r.2.1, r.2.2)
      else if is_ready r.2.1 then (0, t + 1, r.2.1, r.2.2)
      else if t = 0 then (0, 0, r.2.1, r.2.2)
      else poll_loop read_status is_ready t r.2.1 r.2.2

/-- Lines 381-425. -/
def dataflash_page0_erase_at25 (s : Spi) : Int × Spi :=
  let u := at25_unprotect s
  if u.1 ≠ 0 then u
  else
    let w := at25_cmd_write_enbale u.2
    if w.1 ≠ 0 then w
    else
      let e := df_send_command (some [CMD_ERASE_BLOCK4K_AT25, 0, 0, 0]) 4 none 0 w.2
      if e.1 ≠ 0 then (e.1, e.2.2)
      else
        let p := poll_loop df_read_status_at25 (fun status => status &&& STATUS_READY_AT25 == 0)
          1000 0 (udelay 33000 e.2.2)
        if p.1 ≠ 0 then (p.1, p.2.2.2)
        else if p.2.1 = 0 then (-1, p.2.2.2)
        else (0, p.2.2.2)

/-- Lines 427-462. -/
def dataflash_page0_erase_at45 (s : Spi) : Int × Spi :=
  let e := df_send_command (some [CMD_ERASE_PAGE_AT45, 0, 0, 0]) 4 none 0 s
  if e.1 ≠ 0 then (e.1, e.2.2)
  else
    let p := poll_loop df_read_status_at45 (fun status => status &&& STATUS_READY_AT45 != 0)
      1000 0 (udelay 33000 e.2.2)
    if p.1 ≠ 0 then (p.1, p.2.2.2)
    else if p.2.2.1 &&& STATUS_READY_AT45 = 0 then (-1, p.2.2.2)
    else (0, p.2.2.2)

/-- Lines 463-474. -/
def spsn_cmd_write_enable (s : Spi) : Int × Spi :=
  let r := df_send_command (some [CMD_WRITE_ENABLE_SPSN]) 1 none 0 s
  if r.1 ≠ 0 then (r.1, r.2.2) else (0, r.2.2)

/-- Lines 475-519. -/
def dataflash_sector0_erase_spsn (s : Spi) : Int × Spi :=
  let w := spsn_cmd_write_enable s
  if w.1 ≠ 0 then w
  else
    let e := df_send_command (some [CMD_ERASE_SECTOR_SPSN, 0, 0, 0]) 4 none 0 w.2
    if e.1 ≠ 0 then (e.1, e.2.2)
    else
      let p := poll_loop df_read_status_spsn (fun status => status &&& STATUS_READY_SPSN == 0)
        50000 0 (udelay 50000 e.2.2)
      if p.1 ≠ 0 then (p.1, p.2.2.2)
      else if p.2.1 = 0 then (-1, p.2.2.2)
      else (0, p.2.2.2)

/-- Lines 521-532. -/
def micron_cmd_write_enable (s : Spi) : Int × Spi :=
  let r := df_send_command (some [CMD_WRITE_ENABLE_MICRON]) 1 none 0 s
  if r.1 ≠ 0 then (r.1, r.2.2) else (0, r.2.2)

/-- Lines 533-577. -/
def dataflash_sector0_erase_micron (s : Spi) : Int × Spi :=
  let w := micron_cmd_write_enable s
  if w.1 ≠ 0 then w
  else
    let e := df_send_command (some [CMD_ERASE_SECTOR_MICRON, 0, 0, 0]) 4 none 0 w.2
    if e.1 ≠ 0 then (e.1, e.2.2)
    else
      let p := poll_loop df_read_status_micron
        (fun status => status &&& STATUS_READY_MICRON != 0) 50000 0 (udelay 50000 e.2.2)
      if p.1 ≠ 0 then (p.1, p.2.2.2)
      else if p.2.1 = 0 then (-1, p.2.2.2)
      else (0, p.2.2.2)

/-- Lines 579-617. `pin` is the level `pio_get_value` reads on the recovery
button pin (gpio.h); `0` means pressed. -/
def dataflash_recovery (pin : Nat) (df_desc : dataflash_descriptor) (s : Spi) : Int × Spi :=
  if pin = 0 then
    let r : Int × Spi :=
      if df_desc.family = DF_FAMILY_AT26F ∨ df_desc.family = DF_FAMILY_AT26DF then
        dataflash_page0_erase_at25 s
      else if df_desc.family = DF_FAMILY_S25FL512S then
        dataflash_sector0_erase_spsn s
      else if df_desc.family = DF_FAMILY_N25Q then
        dataflash_sector0_erase_micron s
      else
        dataflash_page0_erase_at45 s
    if r.1 ≠ 0 then r else (0, r.2)
  else (-1, s)

/-! ## Image loading (lines 215-237 and 809-890) -/

/-- Modelled from the spec: the image descriptor `struct image_info`
(common.h), with the fields the loader uses: offset, length and destination of
the kernel image, the device-tree flag `of`, and offset, length and destination
of the device-tree blob. A destination is the buffer it points at. -/
structure image_info where
  offset : Nat
  length : Nat
  dest : Option (List Nat)
  of : Nat
  of_offset : Nat
  of_length : Nat
  of_dest : Option (List Nat)

/-- The build options the loader depends on: `CONFIG_DATAFLASH_RECOVERY`,
`CONFIG_LOAD_LINUX || CONFIG_LOAD_ANDROID`, and `CONFIG_OF_LIBFDT`. -/
structure Config where
  dataflash_recovery : Bool
  load_linux : Bool
  of_libfdt : Bool

/-- The collaborators outside this file, as the loader sees them: the helper
`division` (div.h), the return code of `at91_spi_init` (spi.h), the level of
the recovery button pin, and the size inspectors `kernel_size` and
`of_get_dt_total_size` (fdt.h) applied to a destination buffer. -/
structure Env where
  division : Nat → Nat → Nat × Nat
  spi_init_ret : Int
  pin : Nat
  kernel_size : Option (List Nat) → Int
  of_get_dt_total_size : Option (List Nat) → Int

/-- Bus set-up and tear-down calls made by the loader. -/
inductive CtlOp where
  | hwInit
  | spiInit
  | spiEnable
  | spiDisable
  deriving DecidableEq, Repr

/-- The board as the loader sees it: the SPI bus and the chronological log of
set-up and tear-down calls. -/
structure Board where
  spi : Spi
  ctl : List CtlOp

/-- Modelled from the spec: `at91_spi0_hw_init` (board.h). -/
def at91_spi0_hw_init (b : Board) : Board := { b with ctl := b.ctl ++ [CtlOp.hwInit] }

/-- Modelled from the spec: `at91_spi_init` (spi.h); its return code comes
from the environment. -/
def at91_spi_init (env : Env) (b : Board) : Int × Board :=
  (env.spi_init_ret, { b with ctl := b.ctl ++ [CtlOp.spiInit] })

/-- Modelled from the spec: `at91_spi_enable` (spi.h). -/
def at91_spi_enable (b : Board) : Board := { b with ctl := b.ctl ++ [CtlOp.spiEnable] }

/-- Modelled from the spec: `at91_spi_disable` (spi.h). -/
def at91_spi_disable (b : Board) : Board := { b with ctl := b.ctl ++ [CtlOp.spiDisable] }

/-- Lines 215-237. `is_kernel` stands for the test `flag == KERNEL_IMAGE`.
Result: the `int` returned, the destination buffer and the bus afterwards. -/
def update_image_length (cfg : Config) (env : Env) (df_desc : dataflash_descriptor)
    (offset : Nat) (dest : Option (List Nat)) (is_kernel : Bool) (s : Spi) :
    Int × Option (List Nat) × Spi :=
  let length := df_desc.page_size
  let r := dataflash_read_array env.division df_desc offset length dest s
  if r.1 ≠ 0 then (-1, r.2.1, r.2.2)
  else if is_kernel then (env.kernel_size r.2.1, r.2.1, r.2.2)
  else if cfg.of_libfdt then (env.of_get_dt_total_size r.2.1, r.2.1, r.2.2)
  else (-1, r.2.1, r.2.2)

/-- Storing an `int` into an `unsigned int` field. -/
def to_unsigned (x : Int) : Nat := (x % 2 ^ 32).toNat

/-- Lines 842-885: everything `load_dataflash` does between the recovery step
and the label `err_exit`. Result: the value of `ret`, whether control reaches
`err_exit` (`true`) or leaves through one of the two `return -1;` of lines 846
and 869 (`false`), the image descriptor and the bus afterwards. -/
def load_images (cfg : Config) (env : Env) (df_desc : dataflash_descriptor)
    (image : image_info) (s : Spi) : Int × Bool × image_info × Spi :=
  let l : Int × Option (List Nat) × Spi :=
    if cfg.load_linux then update_image_length cfg env df_desc image.offset image.dest true s
    else (0, image.dest, s)
  if cfg.load_linux = true ∧ l.1 = -1 then (-1, false, { image with dest := l.2.1 }, l.2.2)
  else
    let image1 : image_info :=
      if cfg.load_linux then { image with dest := l.2.1, length := to_unsigned l.1 }
      else image
    let r := dataflash_read_array env.division df_desc image1.offset image1.length image1.dest
      l.2.2
    let image2 : image_info := { image1 with dest := r.2.1 }
    if r.1 ≠ 0 then (-1, true, image2, r.2.2)
    else if image2.of ≠ 0 then
      let l2 : Int × Option (List Nat) × Spi :=
        if cfg.load_linux then
          update_image_length cfg env df_desc image2.of_offset image2.of_dest false r.2.2
        else (0, image2.of_dest, r.2.2)
      if cfg.load_linux = true ∧ l2.1 = -1 then
        (-1, false, { image2 with of_dest := l2.2.1 }, l2.2.2)
      else
        let image3 : image_info :=
          if cfg.load_linux then { image2 with of_dest := l2.2.1, of_length := to_unsigned l2.1 }
          else image2
        let r2 := dataflash_read_array env.division df_desc image3.of_offset image3.of_length
          image3.of_dest l2.2.2
        let image4 : image_info := { image3 with of_dest := r2.2.1 }
        if r2.1 ≠ 0 then (-1, true, image4, r2.2.2)
        else (0, true, image4, r2.2.2)
    else (0, true, image2, r.2.2)

/-- Lines 809-890. The local `df_descriptor` is indeterminate before the
probe, which fills every field when it succeeds; it starts here as
`df_descriptor`. Result: the return code, the image descriptor and the board
afterwards. -/
def load_dataflash (cfg : Config) (env : Env) (df_descriptor : dataflash_descriptor)
    (image : image_info) (b : Board) : Int × image_info × Board :=
  let b1 := at91_spi0_hw_init b
  let i := at91_spi_init env b1
  if i.1 ≠ 0 then (-1, image, i.2)
  else
    let b2 := at91_spi_enable i.2
    let p := dataflash_probe_atmel df_descriptor b2.spi
    if p.1 ≠ 0 then (-1, image, at91_spi_disable { b2 with spi := p.2.2 })
    else
      let rcv : Int × Spi :=
        if cfg.dataflash_recovery then dataflash_recovery env.pin p.2.1 p.2.2
        else (-1, p.2.2)
      if cfg.dataflash_recovery = true ∧ rcv.1 = 0 then
        (-2, image, at91_spi_disable { b2 with spi := rcv.2 })
      else
        let m := load_images cfg env p.2.1 image rcv.2
        if m.2.1 then (m.1, m.2.2.1, at91_spi_disable { b2 with spi := m.2.2.2 })
        else (m.1, m.2.2.1, { b2 with spi := m.2.2.2 })

/-! ## Concrete parts and buses used in the examples -/

/-- A bus with no history whose device answers the successive reads with the
elements of `l`, and with `0` once `l` is used up. -/
def busOf (l : List Nat) : Spi :=
  { rx := fun n => l.getD n 0, nread := 0, trace := [] }

/-- The descriptor of an AT45DB161D in its native (non-linear) page mode. -/
def at45db161d : dataflash_descriptor :=
  { family := 0x20, pages := 4096, page_size := 528, page_offset := 10, is_power_2 := 0 }

/-- A simulated AT45DB161D answering the probe: Atmel ID `0x1F`, family byte
`0x26`, and a status byte `0xAC` (ready, density bits `0x2C`, bit 0 clear). -/
def at45db161dProbeBus : Spi := busOf [0, 0x1F, 0x26, 0, 0, 0, 0, 0xAC]

/-- A simulated part answering an array read: five bytes during the command,
then the image bytes `0xDE, 0xAD, 0xBE, 0xEF` and zeros after them. -/
def imageBus : Spi := busOf [9, 9, 9, 9, 9, 0xDE, 0xAD, 0xBE, 0xEF]

/-- The descriptor of an AT45DB011D in its native (non-linear) page mode. -/
def at45db011d : dataflash_descriptor :=
  { family := 0x20, pages := 512, page_size := 264, page_offset := 9, is_power_2 := 0 }

/-- The descriptor of an AT25DF321 (linear addressing). -/
def at25df321 : dataflash_descriptor :=
  { family := 0x40, pages := 16384, page_size := 256, page_offset := 0, is_power_2 := 1 }

/-- An arbitrary starting descriptor. -/
def desc0 : dataflash_descriptor :=
  { family := 0xFF, pages := 7, page_size := 3, page_offset := 5, is_power_2 := 9 }

/-! ## Wire-level vocabulary used by the statements -/

/-- The 3-address-byte frame: opcode, address bits 23..0 most significant byte
first, one dummy byte. -/
def frame3 (a : Nat) : List Nat :=
  [0x0B, (a >>> 16) &&& 0xFF, (a >>> 8) &&& 0xFF, a &&& 0xFF, 0x00]

/-- The 4-address-byte frame: opcode, address bits 31..0 most significant byte
first, no dummy byte. -/
def frame4 (a : Nat) : List Nat :=
  [0x0B, (a >>> 24) &&& 0xFF, (a >>> 16) &&& 0xFF, (a >>> 8) &&& 0xFF, a &&& 0xFF]

/-- Wire activity of shifting out the bytes `cmd` when the next read is the
`k`-th: each byte is written and the byte shifted in is read. -/
def cmdOps (rx : Nat → Nat) : Nat → List Nat → List BusOp
  | _, [] => []
  | k, b :: bs => BusOp.writeData b :: BusOp.readSpi (rx k) :: cmdOps rx (k + 1) bs

/-- Wire activity of clocking in `n` data bytes when the next read is the
`k`-th: a zero is written and the byte shifted in is read, `n` times. -/
def dataOps (rx : Nat → Nat) : Nat → Nat → List BusOp
  | _, 0 => []
  | k, n + 1 => BusOp.writeData 0 :: BusOp.readSpi (rx k) :: dataOps rx (k + 1) n

/-- The `n` bytes shifted in from the `k`-th read onwards, as stored in an
`unsigned char` buffer. -/
def dataBytes (rx : Nat → Nat) : Nat → Nat → List Nat
  | _, 0 => []
  | k, n + 1 => (rx k % 256) :: dataBytes rx (k + 1) n

/-- Wire activity of one complete transfer of the command `cmd` followed by
`n` data bytes, when the next read is the `k`-th. -/
def transferOps (rx : Nat → Nat) (k : Nat) (cmd : List Nat) (n : Nat) : List BusOp :=
  [BusOp.csActivate, BusOp.readSr] ++ cmdOps rx k cmd
    ++ dataOps rx (k + cmd.length) n ++ [BusOp.csDeactivate]

/-- The byte a one-command-byte, one-data-byte status read started on bus `s`
stores into the caller's `status`: the answer to the second read, narrowed to
`unsigned char`. -/
def statusByte (s : Spi) : Nat := s.rx (s.nread + 1) % 256

/-- Byte `i` of the ID array `dev_id` filled by an ID read started on bus `s`:
the answer to read `i + 1` (read `0` answers the opcode), narrowed to
`unsigned char`. -/
def idByte (s : Spi) (i : Nat) : Nat := s.rx (s.nread + 1 + i) % 256

/-- The bus as the ID read of the probe leaves it, on which a following
status read starts. -/
def afterIdRead (s : Spi) : Spi :=
  { rx := s.rx, nread := s.nread + 6, trace := s.trace ++ transferOps s.rx s.nread [0x9F] 5 }

/-- The geometry triple of a descriptor. -/
def geometry (d : dataflash_descriptor) : Nat × Nat × Nat :=
  (d.pages, d.page_size, d.page_offset)

/-- Number of chip-select activations in a trace. -/
def csActivations (t : List BusOp) : Nat := t.count BusOp.csActivate

/-- Number of chip-select deactivations in a trace. -/
def csDeactivations (t : List BusOp) : Nat := t.count BusOp.csDeactivate

/-- The bus after one complete transfer of the data-less command `cmd`
started on `s`. -/
def afterCommand (s : Spi) (cmd : List Nat) : Spi :=
  { rx := s.rx, nread := s.nread + cmd.length,
    trace := s.trace ++ transferOps s.rx s.nread cmd 0 }

/-- The bus after one status read (opcode `cmd`, one data byte) started on
`s`. -/
def afterStatusRead (s : Spi) (cmd : Nat) : Spi :=
  { rx := s.rx, nread := s.nread + 2, trace := s.trace ++ transferOps s.rx s.nread [cmd] 1 }

/-- The bus after `n` consecutive status reads (opcode `cmd`) started on `s`. -/
def afterStatusReads (s : Spi) (cmd : Nat) : Nat → Spi
  | 0 => s
  | n + 1 => afterStatusRead (afterStatusReads s cmd n) cmd

/-- The status byte returned by the `i`-th (from `0`) of consecutive status
reads started on `p`. -/
def pollStatus (p : Spi) (i : Nat) : Nat := p.rx (p.nread + 2 * i + 1) % 256

/-- What a poll phase does: started on bus `p` with budget `N`, status opcode
`cmd` and ready condition `ready`, it ends with return code `ret` on bus
`out`. If the first status read is ready it stops after that one read with
`0`; in general it stops with `0` right after the first ready read among the
first `N`; if none of the first `N` reads is ready it makes exactly `N` reads
and ends with `-1`; and it ends with `0` exactly when one of the first `N`
reads is ready. -/
def PollOutcome (ready : Nat → Prop) (N cmd : Nat) (p : Spi) (ret : Int) (out : Spi) : Prop :=
  (ready (pollStatus p 0) → ret = 0 ∧ out = afterStatusReads p cmd 1)
  ∧ (∀ i, i < N → (∀ j, j < i → ¬ ready (pollStatus p j)) → ready (pollStatus p i) →
      ret = 0 ∧ out = afterStatusReads p cmd (i + 1))
  ∧ ((∀ j, j < N → ¬ ready (pollStatus p j)) → ret = -1 ∧ out = afterStatusReads p cmd N)
  ∧ (ret = 0 ↔ ∃ i, i < N ∧ ready (pollStatus p i))

/-- The bus after a write-enable `[0x06]` followed by a write-status with
value zero `[0x01, 0x00]`, started on `s`. -/
def afterWriteStatusZero (s : Spi) : Spi :=
  afterCommand (afterCommand s [0x06]) [0x01, 0x00]

/-- The bus on which `at25_unprotect`, started on `s` with a protect bit set
in the first status, makes its second status read: after the first status
read, the unlock of the lock bit if that bit was set, and the global
unprotect. -/
def beforeRecheck (s : Spi) : Spi :=
  if statusByte s &&& 0x80 ≠ 0 then
    afterWriteStatusZero (afterWriteStatusZero (afterStatusRead s 0x05))
  else
    afterWriteStatusZero (afterStatusRead s 0x05)

/-- The last status byte `at25_unprotect` reads when started on `s`: the first
one when it has no protect bit, the re-read one otherwise. -/
def lastStatusRead (s : Spi) : Nat :=
  if statusByte s &&& 0x0C = 0 then statusByte s else statusByte (beforeRecheck s)

/-- A loader environment for the examples: quotient-and-remainder division,
a successful `at91_spi_init`, the given button level and the given answers of
the two size inspectors. -/
def envOf (pin : Nat) (ksize dtsize : Int) : Env :=
  { division := spec_division, spi_init_ret := 0, pin := pin,
    kernel_size := fun _ => ksize, of_get_dt_total_size := fun _ => dtsize }

/-- A kernel-only image request: 4 bytes at offset `0x8400` into a 4-byte
buffer. -/
def image0 : image_info :=
  { offset := 0x8400, length := 4, dest := some [0, 0, 0, 0], of := 0, of_offset := 0,
    of_length := 0, of_dest := none }

/-- A board on which nothing has happened yet, with the bus `s`. -/
def boardOf (s : Spi) : Board := { spi := s, ctl := [] }

/-- Bus `s2` continues bus `s1`: its trace is the trace of `s1` followed by
further activity. -/
def Continues (s1 s2 : Spi) : Prop := ∃ t, s2.trace = s1.trace ++ t

/-- Build with the recovery feature only. -/
def cfgRecovery : Config := { dataflash_recovery := true, load_linux := false, of_libfdt := false }

/-- Build with dynamic image sizing only (`CONFIG_LOAD_LINUX`). -/
def cfgLinux : Config := { dataflash_recovery := false, load_linux := true, of_libfdt := false }

/-- A simulated AT45DB161D that is probed, takes the page-erase command and
reports ready (`0x80`) on the first poll. -/
def at45RecoveryBus : Spi := busOf [0, 0x1F, 0x26, 0, 0, 0, 0, 0xAC, 0, 0, 0, 0, 0, 0x80]

/-- A simulated AT25 part (ID `0x1F, 0x47`) whose status stays `0x0C`, so that
the unprotect step of the recovery erase fails, and which then serves an array
read with the image bytes `0xDE, 0xAD, 0xBE, 0xEF`. -/
def at25ProtectedBus : Spi :=
  busOf [0, 0x1F, 0x47, 0, 0, 0, 0, 0x0C, 0, 0, 0, 0, 0x0C, 9, 9, 9, 9, 9, 0xDE, 0xAD, 0xBE, 0xEF]

/-- A simulated AT25 part (ID `0x1F, 0x47`) answering the probe; every later
read yields `0`. -/
def at25ProbeBus : Spi := busOf [0, 0x1F, 0x47, 0, 0, 0]

/-- A kernel-only image request with a destination buffer of one AT25 page. -/
def imagePage : image_info :=
  { offset := 0x8400, length := 0, dest := some (List.replicate 256 0), of := 0,
    of_offset := 0, of_length := 0, of_dest := none }

/-- The seven (pages, page_size, page_offset) entries of the AT45 geometry
`switch` (lines 637-677). -/
def at45Table : List (Nat × Nat × Nat) :=
  [(512, 264, 9), (1024, 264, 9), (2048, 264, 9), (4096, 264, 9), (4096, 528, 10),
   (8192, 528, 10), (8192, 1056, 11)]

/-- The family code the probe derives from an ID response read on bus `s`
(lines 797-802): byte 1 masked with `0xE0` for the Atmel manufacturer code,
byte 1 itself otherwise. -/
def derivedFamily (s : Spi) : Nat :=
  if idByte s 0 = 0x1F then idByte s 1 &&& 0xE0 else idByte s 1

/-- A simulated AT25 part (ID `0x1F, 0x47`) that answers the probe and then
serves an array read with the image bytes `0xDE, 0xAD, 0xBE, 0xEF`. -/
def at25ImageBus : Spi :=
  busOf [0, 0x1F, 0x47, 0, 0, 0, 9, 9, 9, 9, 9, 0xDE, 0xAD, 0xBE, 0xEF]

/-- A part that answers every read with the same byte `v`. -/
def stuckBus (v : Nat) : Spi := { rx := fun _ => v, nread := 0, trace := [] }

/-! ## Shared lemmas on the transport -/

theorem cmdLoop_eq (c : List Nat) (s : Spi) :
    cmdLoop c.length c s =
      { rx := s.rx, nread := s.nread + c.length, trace := s.trace ++ cmdOps s.rx s.nread c } := by
  induction c generalizing s with
  | nil => simp [cmdLoop, cmdOps]
  | cons b bs ih =>
    simp only [List.length_cons, cmdLoop, List.tail_cons, List.headD_cons]
    rw [ih]
    simp [at91_spi_read_spi, at91_spi_write_data, cmdOps, Nat.add_assoc, Nat.add_comm 1]

theorem dataLoop_eq (n : Nat) (data : List Nat) (s : Spi) :
    dataLoop n data s =
      (dataBytes s.rx s.nread n ++ data.drop n,
       { rx := s.rx, nread := s.nread + n, trace := s.trace ++ dataOps s.rx s.nread n }) := by
  induction n generalizing data s with
  | zero => simp [dataLoop, dataBytes, dataOps]
  | succ n ih =>
    simp only [dataLoop]
    rw [ih]
    cases data <;>
      simp [at91_spi_read_spi, at91_spi_write_data, dataBytes, dataOps, Nat.add_assoc,
        Nat.add_comm 1]

theorem dataBytes_length (rx : Nat → Nat) (k n : Nat) : (dataBytes rx k n).length = n := by
  induction n generalizing k with
  | zero => rfl
  | succ n ih => simp [dataBytes, ih]

/-- A transfer with a non-null command of the announced non-zero length and a
non-null data buffer succeeds; its result is given in closed form. -/
theorem df_send_command_ok (c : List Nat) (buf : List Nat) (n : Nat) (s : Spi)
    (hc : c ≠ []) :
    df_send_command (some c) c.length (some buf) n s =
      (0, some (dataBytes s.rx (s.nread + c.length) n ++ buf.drop n),
       { rx := s.rx, nread := s.nread + c.length + n,
         trace := s.trace ++ transferOps s.rx s.nread c n }) := by
  have hl : c.length ≠ 0 := by
    cases c with
    | nil => exact absurd rfl hc
    | cons b bs => simp
  simp only [df_send_command, if_neg hl]
  rw [if_neg (by simp)]
  simp only [cmdLoop_eq, dataLoop_eq, at91_spi_cs_activate, at91_spi_read_sr,
    at91_spi_cs_deactivate, Option.getD_some, transferOps]
  by_cases hn : n = 0
  · subst hn
    simp [dataBytes, dataOps]
  · simp [hn, List.append_assoc]

theorem spec_division_ok : DivisionSpec spec_division := fun _ _ _ => rfl

theorem and_ff (x : Nat) : x &&& 0xFF = x % 256 :=
  Nat.and_pow_two_sub_one_eq_mod x 8

theorem read_cmd_length (d : dataflash_descriptor) (a : Nat) : (read_cmd d a).length = 5 := by
  unfold read_cmd
  split
  · rfl
  · split <;> rfl

theorem read_cmd_frame3 (d : dataflash_descriptor) (a : Nat)
    (h : d.family = 0x02 ∨ d.family = 0xBA ∨ d.pages ≤ 16384) : read_cmd d a = frame3 a := by
  unfold read_cmd frame3
  simp only [and_ff, DF_FAMILY_S25FL512S, DF_FAMILY_N25Q, CMD_READ_ARRAY_FAST]
  rcases h with h | h | h
  · simp [h]
  · simp [h]
  · have : ¬ d.pages > 16384 := by omega
    simp [this]

theorem read_cmd_frame4 (d : dataflash_descriptor) (a : Nat)
    (h1 : d.family ≠ 0x02) (h2 : d.family ≠ 0xBA) (h3 : 16384 < d.pages) :
    read_cmd d a = frame4 a := by
  unfold read_cmd frame4
  simp only [and_ff, DF_FAMILY_S25FL512S, DF_FAMILY_N25Q, CMD_READ_ARRAY_FAST]
  simp [h1, h2, h3]

/-- An array read into a non-null buffer is one successful transfer of the
five command bytes followed by `len` data bytes. -/
theorem read_array_eq (division : Nat → Nat → Nat × Nat) (d : dataflash_descriptor)
    (offset len : Nat) (buf : List Nat) (s : Spi) :
    dataflash_read_array division d offset len (some buf) s =
      (0, some (dataBytes s.rx (s.nread + 5) len ++ buf.drop len),
       { rx := s.rx, nread := s.nread + 5 + len,
         trace := s.trace ++ transferOps s.rx s.nread (read_cmd d (read_address division d offset)) len }) := by
  have hne : read_cmd d (read_address division d offset) ≠ [] := by
    intro h
    have := read_cmd_length d (read_address division d offset)
    rw [h] at this
    simp at this
  have h := df_send_command_ok (read_cmd d (read_address division d offset)) buf len s hne
  rw [read_cmd_length] at h
  simp [dataflash_read_array, h]

theorem frame3_decode (a : Nat) :
    ((a >>> 16) &&& 0xFF) * 65536 + ((a >>> 8) &&& 0xFF) * 256 + (a &&& 0xFF) = a % 2 ^ 24 := by
  simp only [and_ff, Nat.shiftRight_eq_div_pow]
  omega

theorem frame4_decode (a : Nat) :
    ((a >>> 24) &&& 0xFF) * 16777216 + ((a >>> 16) &&& 0xFF) * 65536
      + ((a >>> 8) &&& 0xFF) * 256 + (a &&& 0xFF) = a % 2 ^ 32 := by
  simp only [and_ff, Nat.shiftRight_eq_div_pow]
  omega

theorem read_address_nonlinear (division : Nat → Nat → Nat × Nat)
    (hdiv : DivisionSpec division) (d : dataflash_descriptor) (offset : Nat)
    (hp : d.is_power_2 = 0) (hps : 0 < d.page_size) :
    read_address division d offset
      = ((offset / d.page_size) <<< d.page_offset + offset % d.page_size) % 2 ^ 32 := by
  simp [read_address, hdiv offset d.page_size hps, hp, Nat.add_mod]

/-! ## Array reader: address computation and framing -/

/-- C1. Non-linear addressing: for a descriptor with `is_power_2 = 0`, a
positive page size and a shift below 32, and a 32-bit offset, the address the
reader computes is `((offset / page_size) << page_offset) + offset % page_size`
reduced modulo `2 ^ 32`; the frame put on the wire is built from that address
(the 3-byte form carries its low 24 bits, the 4-byte form all 32); and for
page size 264, shift 9, offset 530 the page index is 2, the byte-in-page is 2
and the address is 1026. The helper `division` is any function that returns
quotient and remainder for a non-zero divisor. -/
theorem read_array_nonlinear_address (division : Nat → Nat → Nat × Nat)
    (hdiv : DivisionSpec division) (d : dataflash_descriptor) (offset len : Nat)
    (buf : List Nat) (s : Spi)
    (hp : d.is_power_2 = 0) (hps : 0 < d.page_size) (_hpo : d.page_offset < 32)
    (_ho : offset < 2 ^ 32) :
    read_address division d offset
        = ((offset / d.page_size) <<< d.page_offset + offset % d.page_size) % 2 ^ 32
    ∧ (dataflash_read_array division d offset len (some buf) s).2.2.trace
        = s.trace ++ transferOps s.rx s.nread
            (if d.family = 0x02 ∨ d.family = 0xBA ∨ d.pages ≤ 16384
              then frame3 (((offset / d.page_size) <<< d.page_offset + offset % d.page_size) % 2 ^ 32)
              else frame4 (((offset / d.page_size) <<< d.page_offset + offset % d.page_size) % 2 ^ 32))
            len
    ∧ (d.page_size = 264 → d.page_offset = 9 → offset = 530 →
        division offset d.page_size = (2, 2) ∧ read_address division d offset = 1026) := by
  have ha := read_address_nonlinear division hdiv d offset hp hps
  refine ⟨ha, ?_, ?_⟩
  · rw [read_array_eq, ha]
    by_cases h : d.family = 0x02 ∨ d.family = 0xBA ∨ d.pages ≤ 16384
    · rw [if_pos h, read_cmd_frame3 d _ h]
    · rw [if_neg h]
      have h1 : d.family ≠ 0x02 := fun e => h (Or.inl e)
      have h2 : d.family ≠ 0xBA := fun e => h (Or.inr (Or.inl e))
      have h3 : 16384 < d.pages := by
        by_contra hc
        exact h (Or.inr (Or.inr (by omega)))
      rw [read_cmd_frame4 d _ h1 h2 h3]
  · intro h1 h2 h3
    refine ⟨?_, ?_⟩
    · rw [h1, h3]
      exact hdiv 530 264 (by decide)
    · rw [ha, h1, h2, h3]
      decide

/-- C1 at page size 264, shift 9, offset 530: address 1026, i.e. the address
bytes `0, 4, 2` on the wire. -/
theorem read_array_nonlinear_address_witness :
    (DivisionSpec spec_division ∧ at45db011d.is_power_2 = 0 ∧ 0 < at45db011d.page_size
      ∧ at45db011d.page_offset < 32 ∧ (530 : Nat) < 2 ^ 32)
    ∧ read_address spec_division at45db011d 530 = 1026
    ∧ (dataflash_read_array spec_division at45db011d 530 2 (some [0, 0])
          (busOf [7, 7, 7, 7, 7, 0xAA, 0xBB])).2.2.trace
        = [BusOp.csActivate, BusOp.readSr,
           BusOp.writeData 0x0B, BusOp.readSpi 7, BusOp.writeData 0, BusOp.readSpi 7,
           BusOp.writeData 4, BusOp.readSpi 7, BusOp.writeData 2, BusOp.readSpi 7,
           BusOp.writeData 0, BusOp.readSpi 7,
           BusOp.writeData 0, BusOp.readSpi 0xAA, BusOp.writeData 0, BusOp.readSpi 0xBB,
           BusOp.csDeactivate] := by
  have h := read_array_nonlinear_address spec_division spec_division_ok at45db011d
    530 2 [0, 0] (busOf [7, 7, 7, 7, 7, 0xAA, 0xBB]) rfl (by decide) (by decide) (by decide)
  refine ⟨⟨spec_division_ok, rfl, by decide, by decide, by decide⟩,
    (h.2.2 rfl rfl rfl).2, ?_⟩
  rw [h.2.1]
  decide

/-- C3. Linear addressing: for a descriptor with `is_power_2 ≠ 0` the address
the reader computes is the offset itself, the frame put on the wire is built
from the offset, and replacing the descriptor's `page_size` and `page_offset`
by any other values changes nothing in the outcome of the read. -/
theorem read_array_linear_address (division : Nat → Nat → Nat × Nat)
    (d : dataflash_descriptor) (offset len : Nat)
    (buf : List Nat) (s : Spi) (hp : d.is_power_2 ≠ 0) :
    read_address division d offset = offset
    ∧ (dataflash_read_array division d offset len (some buf) s).2.2.trace
        = s.trace ++ transferOps s.rx s.nread
            (if d.family = 0x02 ∨ d.family = 0xBA ∨ d.pages ≤ 16384
              then frame3 offset else frame4 offset) len
    ∧ ∀ (ps po : Nat) (b : Option (List Nat)),
        dataflash_read_array division { d with page_size := ps, page_offset := po } offset len b s
          = dataflash_read_array division d offset len b s := by
  have ha : read_address division d offset = offset := by simp [read_address, hp]
  refine ⟨ha, ?_, ?_⟩
  · rw [read_array_eq, ha]
    by_cases h : d.family = 0x02 ∨ d.family = 0xBA ∨ d.pages ≤ 16384
    · rw [if_pos h, read_cmd_frame3 d _ h]
    · rw [if_neg h]
      have h1 : d.family ≠ 0x02 := fun e => h (Or.inl e)
      have h2 : d.family ≠ 0xBA := fun e => h (Or.inr (Or.inl e))
      have h3 : 16384 < d.pages := by
        by_contra hc
        exact h (Or.inr (Or.inr (by omega)))
      rw [read_cmd_frame4 d _ h1 h2 h3]
  · intro ps po b
    simp [dataflash_read_array, read_address, read_cmd, hp]

/-- C3 on the AT25 geometry at offset `0x012345`: the address bytes on the
wire are `0x01, 0x23, 0x45`, and a descriptor with other `page_size` and
`page_offset` values behaves the same. -/
theorem read_array_linear_address_witness :
    at25df321.is_power_2 ≠ 0
    ∧ read_address spec_division at25df321 0x012345 = 0x012345
    ∧ (dataflash_read_array spec_division at25df321 0x012345 1 (some [0]) (busOf [])).2.2.trace
        = [BusOp.csActivate, BusOp.readSr,
           BusOp.writeData 0x0B, BusOp.readSpi 0, BusOp.writeData 0x01, BusOp.readSpi 0,
           BusOp.writeData 0x23, BusOp.readSpi 0, BusOp.writeData 0x45, BusOp.readSpi 0,
           BusOp.writeData 0, BusOp.readSpi 0,
           BusOp.writeData 0, BusOp.readSpi 0, BusOp.csDeactivate]
    ∧ dataflash_read_array spec_division { at25df321 with page_size := 264, page_offset := 9 }
          0x012345 1 (some [0]) (busOf [])
        = dataflash_read_array spec_division at25df321 0x012345 1 (some [0]) (busOf []) := by
  have h := read_array_linear_address spec_division at25df321 0x012345 1 [0] (busOf [])
    (by decide)
  refine ⟨by decide, h.1, ?_, h.2.2 264 9 (some [0])⟩
  rw [h.2.1]
  decide

/-- C4. Address-width selection: for a descriptor whose family is neither
S25FL512S (0x02) nor N25Q (0xBA) and any address `a`, the command bytes are
the 3-address-byte frame with a trailing dummy byte when `pages ≤ 16384` and
the 4-address-byte frame when `pages > 16384`; an actual read puts exactly
that frame on the wire; in particular `pages = 16384` gives the 3-byte form
and `pages = 16385` the 4-byte form. -/
theorem read_array_address_width (division : Nat → Nat → Nat × Nat)
    (d : dataflash_descriptor) (offset len : Nat)
    (buf : List Nat) (s : Spi) (h1 : d.family ≠ 0x02) (h2 : d.family ≠ 0xBA) :
    (d.pages ≤ 16384 →
      (∀ a, read_cmd d a = [0x0B, (a >>> 16) &&& 0xFF, (a >>> 8) &&& 0xFF, a &&& 0xFF, 0x00])
      ∧ (dataflash_read_array division d offset len (some buf) s).2.2.trace
          = s.trace ++ transferOps s.rx s.nread (frame3 (read_address division d offset)) len)
    ∧ (d.pages > 16384 →
      (∀ a, read_cmd d a
          = [0x0B, (a >>> 24) &&& 0xFF, (a >>> 16) &&& 0xFF, (a >>> 8) &&& 0xFF, a &&& 0xFF])
      ∧ (dataflash_read_array division d offset len (some buf) s).2.2.trace
          = s.trace ++ transferOps s.rx s.nread (frame4 (read_address division d offset)) len)
    ∧ (∀ a, read_cmd { d with pages := 16384 } a = frame3 a)
    ∧ (∀ a, read_cmd { d with pages := 16385 } a = frame4 a) := by
  refine ⟨fun hle => ⟨fun a => ?_, ?_⟩, fun hgt => ⟨fun a => ?_, ?_⟩, fun a => ?_, fun a => ?_⟩
  · exact read_cmd_frame3 d a (Or.inr (Or.inr hle))
  · rw [read_array_eq, read_cmd_frame3 d _ (Or.inr (Or.inr hle))]
  · exact read_cmd_frame4 d a h1 h2 hgt
  · rw [read_array_eq, read_cmd_frame4 d _ h1 h2 hgt]
  · exact read_cmd_frame3 _ a (Or.inr (Or.inr (Nat.le_refl _)))
  · exact read_cmd_frame4 _ a h1 h2 (Nat.lt_succ_self 16384)

/-- C4 at the boundary: an AT45-family descriptor with 16385 pages sends the
four address bytes of `0x01234567` and no dummy byte, and with 16384 pages the
three low address bytes and a dummy byte. -/
theorem read_array_address_width_witness :
    ((0x20 : Nat) ≠ 0x02 ∧ (0x20 : Nat) ≠ 0xBA)
    ∧ read_cmd { family := 0x20, pages := 16385, page_size := 256, page_offset := 0,
                 is_power_2 := 1 } 0x01234567 = [0x0B, 0x01, 0x23, 0x45, 0x67]
    ∧ read_cmd { family := 0x20, pages := 16384, page_size := 256, page_offset := 0,
                 is_power_2 := 1 } 0x01234567 = [0x0B, 0x23, 0x45, 0x67, 0x00] := by
  have h := read_array_address_width spec_division
    { family := 0x20, pages := 16385, page_size := 256, page_offset := 0, is_power_2 := 1 }
    0x01234567 0 [] (busOf []) (by decide) (by decide)
  refine ⟨by decide, ?_, ?_⟩
  · rw [(h.2.1 (by decide)).1]
    decide
  · have h3 := h.2.2.1 0x01234567
    simp only at h3
    rw [h3]
    decide

/-- C5. For a descriptor of family S25FL512S (0x02) or N25Q (0xBA), whatever
its page count, the command bytes for an address `a` are the opcode, the three
bytes of `a mod 2 ^ 24` most significant first, and a dummy byte; an actual
read puts exactly that frame on the wire. -/
theorem read_array_spansion_micron_frame (division : Nat → Nat → Nat × Nat)
    (d : dataflash_descriptor) (offset len : Nat)
    (buf : List Nat) (s : Spi) (hf : d.family = 0x02 ∨ d.family = 0xBA) :
    (∀ a, read_cmd d a = [0x0B, (a >>> 16) &&& 0xFF, (a >>> 8) &&& 0xFF, a &&& 0xFF, 0x00]
        ∧ (read_cmd d a).length = 5
        ∧ ((a >>> 16) &&& 0xFF) * 65536 + ((a >>> 8) &&& 0xFF) * 256 + (a &&& 0xFF)
            = a % 2 ^ 24)
    ∧ (dataflash_read_array division d offset len (some buf) s).2.2.trace
        = s.trace ++ transferOps s.rx s.nread (frame3 (read_address division d offset)) len := by
  have h3 : ∀ a, read_cmd d a = frame3 a := fun a =>
    read_cmd_frame3 d a (hf.elim Or.inl (fun h => Or.inr (Or.inl h)))
  refine ⟨fun a => ⟨h3 a, read_cmd_length d a, frame3_decode a⟩, ?_⟩
  rw [read_array_eq, h3]

/-- C5 on the Spansion geometry (50000 pages, above the 16384 threshold) at
address `0x01234567`: only the low three address bytes are sent. -/
theorem read_array_spansion_micron_frame_witness :
    ((0x02 : Nat) = 0x02 ∨ (0x02 : Nat) = 0xBA)
    ∧ read_cmd { family := 0x02, pages := 50000, page_size := 512, page_offset := 0,
                 is_power_2 := 1 } 0x01234567 = [0x0B, 0x23, 0x45, 0x67, 0x00] := by
  have h := read_array_spansion_micron_frame spec_division
    { family := 0x02, pages := 50000, page_size := 512, page_offset := 0, is_power_2 := 1 }
    0x01234567 0 [] (busOf []) (Or.inl rfl)
  refine ⟨Or.inl rfl, ?_⟩
  rw [(h.1 0x01234567).1]
  decide

/-! ## Probe: shared lemmas -/

/-- The AT45 status read is one successful transfer of the opcode `0xD7` and
one data byte; the status is the second byte shifted in. -/
theorem df_read_status_at45_eq (st : Nat) (s : Spi) :
    df_read_status_at45 st s =
      (0, s.rx (s.nread + 1) % 256,
       { rx := s.rx, nread := s.nread + 2,
         trace := s.trace ++ transferOps s.rx s.nread [0xD7] 1 }) := by
  have h := df_send_command_ok [CMD_READ_STATUS_AT45] [st] 1 s (by simp)
  simp only [List.length_singleton, CMD_READ_STATUS_AT45] at h
  simp [df_read_status_at45, CMD_READ_STATUS_AT45, h, dataBytes]

/-- The ID read is one successful transfer of the opcode `0x9F` and five data
bytes. -/
theorem read_dev_id_eq (s : Spi) :
    df_send_command (some [CMD_READ_DEV_ID]) 1 (some [0, 0, 0, 0, 0]) 5 s =
      (0, some [s.rx (s.nread + 1) % 256, s.rx (s.nread + 2) % 256, s.rx (s.nread + 3) % 256,
                s.rx (s.nread + 4) % 256, s.rx (s.nread + 5) % 256],
       { rx := s.rx, nread := s.nread + 6,
         trace := s.trace ++ transferOps s.rx s.nread [0x9F] 5 }) := by
  have h := df_send_command_ok [CMD_READ_DEV_ID] [0, 0, 0, 0, 0] 5 s (by simp)
  simp only [List.length_singleton, CMD_READ_DEV_ID] at h
  simp [CMD_READ_DEV_ID, h, dataBytes, Nat.add_assoc]

theorem df_at45_desc_init_eq (d : dataflash_descriptor) (s : Spi) :
    df_at45_desc_init d s =
      ((at45_decode d (statusByte s)).1, (at45_decode d (statusByte s)).2,
       { rx := s.rx, nread := s.nread + 2,
         trace := s.trace ++ transferOps s.rx s.nread [0xD7] 1 }) := by
  simp [df_at45_desc_init, df_read_status_at45_eq, statusByte]

theorem page_size_bit (st : Nat) : st &&& STATUS_PAGE_SIZE_AT45 ≠ 0 ↔ st % 2 = 1 := by
  have hb : st &&& STATUS_PAGE_SIZE_AT45 = st % 2 := Nat.and_one_is_mod st
  rw [hb]
  omega

/-- The descriptor `at45_decode` leaves for a listed density. -/
theorem at45_decode_listed (d : dataflash_descriptor) (st : Nat) :
    (st &&& 0x3C = 0x0C → at45_decode d st =
        (0, { family := d.family, pages := 512, page_size := 264, page_offset := 9,
              is_power_2 := (if st % 2 = 1 then 1 else 0) }))
    ∧ (st &&& 0x3C = 0x14 → at45_decode d st =
        (0, { family := d.family, pages := 1024, page_size := 264, page_offset := 9,
              is_power_2 := (if st % 2 = 1 then 1 else 0) }))
    ∧ (st &&& 0x3C = 0x1C → at45_decode d st =
        (0, { family := d.family, pages := 2048, page_size := 264, page_offset := 9,
              is_power_2 := (if st % 2 = 1 then 1 else 0) }))
    ∧ (st &&& 0x3C = 0x24 → at45_decode d st =
        (0, { family := d.family, pages := 4096, page_size := 264, page_offset := 9,
              is_power_2 := (if st % 2 = 1 then 1 else 0) }))
    ∧ (st &&& 0x3C = 0x2C → at45_decode d st =
        (0, { family := d.family, pages := 4096, page_size := 528, page_offset := 10,
              is_power_2 := (if st % 2 = 1 then 1 else 0) }))
    ∧ (st &&& 0x3C = 0x34 → at45_decode d st =
        (0, { family := d.family, pages := 8192, page_size := 528, page_offset := 10,
              is_power_2 := (if st % 2 = 1 then 1 else 0) }))
    ∧ (st &&& 0x3C = 0x3C → at45_decode d st =
        (0, { family := d.family, pages := 8192, page_size := 1056, page_offset := 11,
              is_power_2 := (if st % 2 = 1 then 1 else 0) })) := by
  have hb := page_size_bit st
  refine ⟨?_, ?_, ?_, ?_, ?_, ?_, ?_⟩ <;> intro h <;>
    by_cases hp : st % 2 = 1 <;>
    simp [at45_decode, h, hb, hp, DENSITY_AT45DB011D, DENSITY_AT45DB021D, DENSITY_AT45DB041D,
      DENSITY_AT45DB081D, DENSITY_AT45DB161D, DENSITY_AT45DB321D, DENSITY_AT45DB642D]

/-- For an unlisted density `at45_decode` returns `-1`. -/
theorem at45_decode_unlisted (d : dataflash_descriptor) (st : Nat)
    (h : ¬ (st &&& 0x3C = 0x0C ∨ st &&& 0x3C = 0x14 ∨ st &&& 0x3C = 0x1C ∨ st &&& 0x3C = 0x24
          ∨ st &&& 0x3C = 0x2C ∨ st &&& 0x3C = 0x34 ∨ st &&& 0x3C = 0x3C)) :
    (at45_decode d st).1 = -1 := by
  simp only [not_or] at h
  obtain ⟨h1, h2, h3, h4, h5, h6, h7⟩ := h
  simp [at45_decode, h1, h2, h3, h4, h5, h6, h7, DENSITY_AT45DB011D, DENSITY_AT45DB021D,
    DENSITY_AT45DB041D, DENSITY_AT45DB081D, DENSITY_AT45DB161D, DENSITY_AT45DB321D,
    DENSITY_AT45DB642D]

/-! ## AT45 geometry table -/

/-- C2. `df_at45_desc_init` issues one status read; with `d` the status byte
masked by `0x3C`, it succeeds exactly when `d` is one of the seven density
codes `0x0C, 0x14, 0x1C, 0x24, 0x2C, 0x34, 0x3C` and returns `-1` otherwise; on
success `is_power_2` is `1` when bit 0 of the status is set and `0` otherwise,
and the geometry is the one listed for the code. -/
theorem at45_desc_init_geometry (d : dataflash_descriptor) (s : Spi) :
    (df_at45_desc_init d s).2.2.trace
        = s.trace ++ [BusOp.csActivate, BusOp.readSr,
                      BusOp.writeData 0xD7, BusOp.readSpi (s.rx s.nread),
                      BusOp.writeData 0, BusOp.readSpi (s.rx (s.nread + 1)),
                      BusOp.csDeactivate]
    ∧ ((df_at45_desc_init d s).1 = 0 ↔
        (statusByte s &&& 0x3C = 0x0C ∨ statusByte s &&& 0x3C = 0x14
          ∨ statusByte s &&& 0x3C = 0x1C ∨ statusByte s &&& 0x3C = 0x24
          ∨ statusByte s &&& 0x3C = 0x2C ∨ statusByte s &&& 0x3C = 0x34
          ∨ statusByte s &&& 0x3C = 0x3C))
    ∧ ((df_at45_desc_init d s).1 ≠ 0 → (df_at45_desc_init d s).1 = -1)
    ∧ ((df_at45_desc_init d s).1 = 0 →
        (df_at45_desc_init d s).2.1.is_power_2 = (if statusByte s % 2 = 1 then 1 else 0)
        ∧ (df_at45_desc_init d s).2.1.family = d.family)
    ∧ (statusByte s &&& 0x3C = 0x0C → geometry (df_at45_desc_init d s).2.1 = (512, 264, 9))
    ∧ (statusByte s &&& 0x3C = 0x14 → geometry (df_at45_desc_init d s).2.1 = (1024, 264, 9))
    ∧ (statusByte s &&& 0x3C = 0x1C → geometry (df_at45_desc_init d s).2.1 = (2048, 264, 9))
    ∧ (statusByte s &&& 0x3C = 0x24 → geometry (df_at45_desc_init d s).2.1 = (4096, 264, 9))
    ∧ (statusByte s &&& 0x3C = 0x2C → geometry (df_at45_desc_init d s).2.1 = (4096, 528, 10))
    ∧ (statusByte s &&& 0x3C = 0x34 → geometry (df_at45_desc_init d s).2.1 = (8192, 528, 10))
    ∧ (statusByte s &&& 0x3C = 0x3C → geometry (df_at45_desc_init d s).2.1 = (8192, 1056, 11)) := by
  obtain ⟨l1, l2, l3, l4, l5, l6, l7⟩ := at45_decode_listed d (statusByte s)
  have hu := at45_decode_unlisted d (statusByte s)
  rw [df_at45_desc_init_eq]
  have hiff : (at45_decode d (statusByte s)).1 = 0 ↔
      (statusByte s &&& 0x3C = 0x0C ∨ statusByte s &&& 0x3C = 0x14
        ∨ statusByte s &&& 0x3C = 0x1C ∨ statusByte s &&& 0x3C = 0x24
        ∨ statusByte s &&& 0x3C = 0x2C ∨ statusByte s &&& 0x3C = 0x34
        ∨ statusByte s &&& 0x3C = 0x3C) := by
    constructor
    · intro h0
      by_contra hc
      rw [hu hc] at h0
      exact absurd h0 (by decide)
    · rintro (h | h | h | h | h | h | h)
      · rw [l1 h]
      · rw [l2 h]
      · rw [l3 h]
      · rw [l4 h]
      · rw [l5 h]
      · rw [l6 h]
      · rw [l7 h]
  refine ⟨by simp [transferOps, cmdOps, dataOps], hiff, ?_, ?_, ?_, ?_, ?_, ?_, ?_, ?_, ?_⟩
  · intro hne
    exact hu (fun hc => hne (hiff.mpr hc))
  · intro h0
    rcases hiff.mp h0 with h | h | h | h | h | h | h
    · simp only [l1 h, and_self]
    · simp only [l2 h, and_self]
    · simp only [l3 h, and_self]
    · simp only [l4 h, and_self]
    · simp only [l5 h, and_self]
    · simp only [l6 h, and_self]
    · simp only [l7 h, and_self]
  · intro h; simp only [l1 h, geometry]
  · intro h; simp only [l2 h, geometry]
  · intro h; simp only [l3 h, geometry]
  · intro h; simp only [l4 h, geometry]
  · intro h; simp only [l5 h, geometry]
  · intro h; simp only [l6 h, geometry]
  · intro h; simp only [l7 h, geometry]

/-- C2 on a status byte `0xAC` (density bits `0x2C`, bit 0 clear): success
with the AT45DB161D geometry and non-linear addressing; on a status byte
`0x90` (density bits `0x10`, not listed): failure. -/
theorem at45_desc_init_geometry_witness :
    (df_at45_desc_init desc0 (busOf [0, 0xAC])).1 = 0
    ∧ geometry (df_at45_desc_init desc0 (busOf [0, 0xAC])).2.1 = (4096, 528, 10)
    ∧ (df_at45_desc_init desc0 (busOf [0, 0xAC])).2.1.is_power_2 = 0
    ∧ (df_at45_desc_init desc0 (busOf [0, 0x90])).1 = -1 := by
  have h := at45_desc_init_geometry desc0 (busOf [0, 0xAC])
  have h2 := at45_desc_init_geometry desc0 (busOf [0, 0x90])
  have e : (df_at45_desc_init desc0 (busOf [0, 0xAC])).1 = 0 :=
    h.2.1.mpr (by decide)
  refine ⟨e, h.2.2.2.2.2.2.2.2.1 (by decide), ?_, ?_⟩
  · rw [(h.2.2.2.1 e).1]
    decide
  · apply h2.2.2.1
    intro h0
    exact absurd (h2.2.1.mp h0) (by decide)

/-! ## Descriptor initialisation and probe -/

theorem ret_norm {α β : Type} (r : Int × α × β) :
    (if r.1 ≠ 0 then (r.1, r.2.1, r.2.2) else (0, r.2.1, r.2.2)) = r := by
  by_cases h : r.1 = 0
  · rw [if_neg (not_not.mpr h)]
    exact Prod.ext h.symm rfl
  · rw [if_pos h]

theorem df_desc_init_at25 (d : dataflash_descriptor) (family : Nat) (s : Spi)
    (h : family = 0x00 ∨ family = 0x40) :
    df_desc_init d family s =
      (0, { family := family, pages := 16384, page_size := 256, page_offset := 0,
            is_power_2 := 1 }, s) := by
  rcases h with h | h <;>
    simp [df_desc_init, df_at25_desc_init, h, DF_FAMILY_AT26F, DF_FAMILY_AT26DF]

theorem df_desc_init_spsn (d : dataflash_descriptor) (s : Spi) :
    df_desc_init d 0x02 s =
      (0, { family := 0x02, pages := 50000, page_size := 512, page_offset := 0,
            is_power_2 := 1 }, s) := by
  simp [df_desc_init, df_spsn_desc_init, DF_FAMILY_AT26F, DF_FAMILY_AT26DF, DF_FAMILY_AT45,
    DF_FAMILY_S25FL512S]

theorem df_desc_init_micron (d : dataflash_descriptor) (s : Spi) :
    df_desc_init d 0xBA s =
      (0, { family := 0xBA, pages := 50000, page_size := 256, page_offset := 0,
            is_power_2 := 1 }, s) := by
  simp [df_desc_init, df_micron_desc_init, DF_FAMILY_AT26F, DF_FAMILY_AT26DF, DF_FAMILY_AT45,
    DF_FAMILY_S25FL512S, DF_FAMILY_N25Q]

theorem df_desc_init_at45 (d : dataflash_descriptor) (s : Spi) :
    df_desc_init d 0x20 s = df_at45_desc_init { d with family := 0x20 } s := by
  have h := ret_norm (df_at45_desc_init { d with family := 0x20 } s)
  simp only [df_desc_init, DF_FAMILY_AT26F, DF_FAMILY_AT26DF, DF_FAMILY_AT45]
  rw [if_pos trivial]
  exact h

theorem df_desc_init_unsupported (d : dataflash_descriptor) (family : Nat) (s : Spi)
    (h0 : family ≠ 0x00) (h1 : family ≠ 0x40) (h2 : family ≠ 0x20) (h3 : family ≠ 0x02)
    (h4 : family ≠ 0xBA) :
    df_desc_init d family s = (-1, { d with family := family }, s) := by
  simp [df_desc_init, h0, h1, h2, h3, h4, DF_FAMILY_AT26F, DF_FAMILY_AT26DF, DF_FAMILY_AT45,
    DF_FAMILY_S25FL512S, DF_FAMILY_N25Q]

theorem at45_decode_family (d : dataflash_descriptor) (st : Nat) :
    (at45_decode d st).2.family = d.family := by
  simp only [at45_decode]
  split_ifs <;> rfl

theorem df_desc_init_family (d : dataflash_descriptor) (family : Nat) (s : Spi) :
    (df_desc_init d family s).2.1.family = family := by
  by_cases h0 : family = 0x00
  · rw [df_desc_init_at25 d family s (Or.inl h0)]
  by_cases h1 : family = 0x40
  · rw [df_desc_init_at25 d family s (Or.inr h1)]
  by_cases h2 : family = 0x20
  · subst h2
    rw [df_desc_init_at45, df_at45_desc_init_eq]
    exact at45_decode_family _ _
  by_cases h3 : family = 0x02
  · subst h3
    rw [df_desc_init_spsn]
  by_cases h4 : family = 0xBA
  · subst h4
    rw [df_desc_init_micron]
  rw [df_desc_init_unsupported d family s h0 h1 h2 h3 h4]

theorem probe_unsupported (d : dataflash_descriptor) (s : Spi)
    (h1 : idByte s 0 ≠ 0x1F) (h2 : idByte s 0 ≠ 0x01) (h3 : idByte s 0 ≠ 0x20) :
    dataflash_probe_atmel d s = (-1, d, afterIdRead s) := by
  simp only [idByte, Nat.add_zero] at h1 h2 h3
  simp [dataflash_probe_atmel, read_dev_id_eq, afterIdRead, MANUFACTURER_ID_ATMEL,
    MANUFACTURER_ID_SPANSION, MANUFACTURER_ID_MICRON, h1, h2, h3]

theorem probe_atmel (d : dataflash_descriptor) (s : Spi) (h : idByte s 0 = 0x1F) :
    dataflash_probe_atmel d s = df_desc_init d (idByte s 1 &&& 0xE0) (afterIdRead s) := by
  simp only [idByte, Nat.add_zero] at h
  simp only [dataflash_probe_atmel, read_dev_id_eq, afterIdRead, MANUFACTURER_ID_ATMEL,
    MANUFACTURER_ID_SPANSION, MANUFACTURER_ID_MICRON, idByte, Option.getD_some,
    List.getD_cons_zero, List.getD_cons_succ, h]
  simp only [ne_eq, not_true_eq_false, false_and, if_false, if_true]
  exact ret_norm _

theorem probe_spansion_micron (d : dataflash_descriptor) (s : Spi)
    (h : idByte s 0 = 0x01 ∨ idByte s 0 = 0x20) :
    dataflash_probe_atmel d s = df_desc_init d (idByte s 1) (afterIdRead s) := by
  simp only [idByte, Nat.add_zero] at h
  rcases h with h | h <;>
  · simp only [dataflash_probe_atmel, read_dev_id_eq, afterIdRead, MANUFACTURER_ID_ATMEL,
      MANUFACTURER_ID_SPANSION, MANUFACTURER_ID_MICRON, idByte, Option.getD_some,
      List.getD_cons_zero, List.getD_cons_succ, h]
    simp only [ne_eq, not_true_eq_false, false_and, and_false, if_false, if_true,
      Nat.reduceEqDiff]
    exact ret_norm _

/-- C6. Whenever the probe succeeds, the descriptor's family is byte 1 of the
ID response masked with `0xE0` if byte 0 is the Atmel code `0x1F`, and byte 1
itself if byte 0 is the Spansion code `0x01` or the Micron code `0x20`. -/
theorem probe_family_selector (d : dataflash_descriptor) (s : Spi)
    (_h : (dataflash_probe_atmel d s).1 = 0) :
    (idByte s 0 = 0x1F → (dataflash_probe_atmel d s).2.1.family = idByte s 1 &&& 0xE0)
    ∧ (idByte s 0 = 0x01 ∨ idByte s 0 = 0x20 →
        (dataflash_probe_atmel d s).2.1.family = idByte s 1) := by
  constructor
  · intro h
    rw [probe_atmel d s h]
    exact df_desc_init_family _ _ _
  · intro h
    rw [probe_spansion_micron d s h]
    exact df_desc_init_family _ _ _

/-- C6 on an Atmel ID response with byte 1 `0x26` (family `0x20`, AT45) and on a
Micron ID response with byte 1 `0xBA`. -/
theorem probe_family_selector_witness :
    (dataflash_probe_atmel desc0 (busOf [0, 0x1F, 0x26, 0, 0, 0, 0, 0xAC])).1 = 0
    ∧ (dataflash_probe_atmel desc0 (busOf [0, 0x1F, 0x26, 0, 0, 0, 0, 0xAC])).2.1.family = 0x20
    ∧ (dataflash_probe_atmel desc0 (busOf [0, 0x20, 0xBA, 0x21, 0, 0])).1 = 0
    ∧ (dataflash_probe_atmel desc0 (busOf [0, 0x20, 0xBA, 0x21, 0, 0])).2.1.family = 0xBA := by
  have e1 : (dataflash_probe_atmel desc0 (busOf [0, 0x1F, 0x26, 0, 0, 0, 0, 0xAC])).1 = 0 := by
    decide
  have e2 : (dataflash_probe_atmel desc0 (busOf [0, 0x20, 0xBA, 0x21, 0, 0])).1 = 0 := by
    decide
  have h1 := probe_family_selector desc0 (busOf [0, 0x1F, 0x26, 0, 0, 0, 0, 0xAC]) e1
  have h2 := probe_family_selector desc0 (busOf [0, 0x20, 0xBA, 0x21, 0, 0]) e2
  refine ⟨e1, ?_, e2, ?_⟩
  · rw [h1.1 (by decide)]
    decide
  · rw [h2.2 (Or.inr (by decide))]
    decide

/-- C7. When byte 0 of the ID response is none of `0x1F`, `0x01`, `0x20`, the
probe returns `-1`, leaves the descriptor as it was, and the only bus activity
is the single ID read: opcode `0x9F` followed by five data bytes inside one
chip-select frame, with no status read after it. -/
theorem probe_unsupported_manufacturer (d : dataflash_descriptor) (s : Spi)
    (h1 : idByte s 0 ≠ 0x1F) (h2 : idByte s 0 ≠ 0x01) (h3 : idByte s 0 ≠ 0x20) :
    (dataflash_probe_atmel d s).1 = -1
    ∧ (dataflash_probe_atmel d s).2.1 = d
    ∧ (dataflash_probe_atmel d s).2.2.trace
        = s.trace ++ [BusOp.csActivate, BusOp.readSr,
                      BusOp.writeData 0x9F, BusOp.readSpi (s.rx s.nread),
                      BusOp.writeData 0, BusOp.readSpi (s.rx (s.nread + 1)),
                      BusOp.writeData 0, BusOp.readSpi (s.rx (s.nread + 2)),
                      BusOp.writeData 0, BusOp.readSpi (s.rx (s.nread + 3)),
                      BusOp.writeData 0, BusOp.readSpi (s.rx (s.nread + 4)),
                      BusOp.writeData 0, BusOp.readSpi (s.rx (s.nread + 5)),
                      BusOp.csDeactivate] := by
  rw [probe_unsupported d s h1 h2 h3]
  refine ⟨rfl, rfl, ?_⟩
  simp [afterIdRead, transferOps, cmdOps, dataOps, Nat.add_assoc]

/-- C7 on an ID response whose manufacturer byte is `0xFF`. -/
theorem probe_unsupported_manufacturer_witness :
    (idByte (busOf [0, 0xFF, 0x26, 0, 0, 0, 0, 0xAC]) 0 ≠ 0x1F
      ∧ idByte (busOf [0, 0xFF, 0x26, 0, 0, 0, 0, 0xAC]) 0 ≠ 0x01
      ∧ idByte (busOf [0, 0xFF, 0x26, 0, 0, 0, 0, 0xAC]) 0 ≠ 0x20)
    ∧ (dataflash_probe_atmel desc0 (busOf [0, 0xFF, 0x26, 0, 0, 0, 0, 0xAC])).1 = -1
    ∧ (dataflash_probe_atmel desc0 (busOf [0, 0xFF, 0x26, 0, 0, 0, 0, 0xAC])).2.1 = desc0
    ∧ (dataflash_probe_atmel desc0 (busOf [0, 0xFF, 0x26, 0, 0, 0, 0, 0xAC])).2.2.trace
        = [BusOp.csActivate, BusOp.readSr,
           BusOp.writeData 0x9F, BusOp.readSpi 0,
           BusOp.writeData 0, BusOp.readSpi 0xFF, BusOp.writeData 0, BusOp.readSpi 0x26,
           BusOp.writeData 0, BusOp.readSpi 0, BusOp.writeData 0, BusOp.readSpi 0,
           BusOp.writeData 0, BusOp.readSpi 0, BusOp.csDeactivate] := by
  have h := probe_unsupported_manufacturer desc0 (busOf [0, 0xFF, 0x26, 0, 0, 0, 0, 0xAC])
    (by decide) (by decide) (by decide)
  refine ⟨by decide, h.1, h.2.1, ?_⟩
  rw [h.2.2]
  decide

/-- C8. `df_desc_init` returns `-1` for every family code other than `0x00`,
`0x40`, `0x20`, `0x02`, `0xBA`, and returns `0` for each of the four
fixed-geometry codes `0x00`, `0x40`, `0x02`, `0xBA`. -/
theorem desc_init_unsupported_family (d : dataflash_descriptor) (family : Nat) (s : Spi) :
    (family ≠ 0x00 → family ≠ 0x40 → family ≠ 0x20 → family ≠ 0x02 → family ≠ 0xBA →
      (df_desc_init d family s).1 = -1)
    ∧ (family = 0x00 ∨ family = 0x40 ∨ family = 0x02 ∨ family = 0xBA →
      (df_desc_init d family s).1 = 0) := by
  constructor
  · intro h0 h1 h2 h3 h4
    rw [df_desc_init_unsupported d family s h0 h1 h2 h3 h4]
  · rintro (h | h | h | h)
    · rw [df_desc_init_at25 d family s (Or.inl h)]
    · rw [df_desc_init_at25 d family s (Or.inr h)]
    · subst h
      rw [df_desc_init_spsn]
    · subst h
      rw [df_desc_init_micron]

/-- C8 on the family code `0x60` (rejected) and on `0x40` (accepted). -/
theorem desc_init_unsupported_family_witness :
    (df_desc_init desc0 0x60 (busOf [])).1 = -1 ∧ (df_desc_init desc0 0x40 (busOf [])).1 = 0 :=
  ⟨(desc_init_unsupported_family desc0 0x60 (busOf [])).1 (by decide) (by decide) (by decide)
      (by decide) (by decide),
   (desc_init_unsupported_family desc0 0x40 (busOf [])).2 (Or.inr (Or.inl rfl))⟩

/-- C9. For the fixed-geometry families `df_desc_init` succeeds, leaves the bus
untouched, and yields a linear-addressing descriptor (`is_power_2 = 1`,
`page_offset = 0`) with 16384 pages of 256 bytes for `0x00` and `0x40`, 50000
pages of 512 bytes for `0x02`, and 50000 pages of 256 bytes for `0xBA`. -/
theorem desc_init_fixed_geometry (d : dataflash_descriptor) (s : Spi) :
    df_desc_init d 0x00 s
        = (0, { family := 0x00, pages := 16384, page_size := 256, page_offset := 0,
                is_power_2 := 1 }, s)
    ∧ df_desc_init d 0x40 s
        = (0, { family := 0x40, pages := 16384, page_size := 256, page_offset := 0,
                is_power_2 := 1 }, s)
    ∧ df_desc_init d 0x02 s
        = (0, { family := 0x02, pages := 50000, page_size := 512, page_offset := 0,
                is_power_2 := 1 }, s)
    ∧ df_desc_init d 0xBA s
        = (0, { family := 0xBA, pages := 50000, page_size := 256, page_offset := 0,
                is_power_2 := 1 }, s) :=
  ⟨df_desc_init_at25 d 0x00 s (Or.inl rfl), df_desc_init_at25 d 0x40 s (Or.inr rfl),
   df_desc_init_spsn d s, df_desc_init_micron d s⟩

/-! ## End-to-end read -/

theorem frame3_mod (a : Nat) : frame3 (a % 2 ^ 32) = frame3 a := by
  have h1 : a % 2 ^ 32 / 2 ^ 16 % 256 = a / 2 ^ 16 % 256 := by omega
  have h2 : a % 2 ^ 32 / 2 ^ 8 % 256 = a / 2 ^ 8 % 256 := by omega
  have h3 : a % 2 ^ 32 % 256 = a % 256 := by omega
  simp only [frame3, and_ff, Nat.shiftRight_eq_div_pow, h1, h2, h3]

theorem cmdOps_count (rx : Nat → Nat) (k : Nat) (c : List Nat) :
    (cmdOps rx k c).count BusOp.csActivate = 0
    ∧ (cmdOps rx k c).count BusOp.csDeactivate = 0 := by
  induction c generalizing k with
  | nil => simp [cmdOps]
  | cons b bs ih => simp [cmdOps, ih (k + 1)]

theorem dataOps_count (rx : Nat → Nat) (k n : Nat) :
    (dataOps rx k n).count BusOp.csActivate = 0
    ∧ (dataOps rx k n).count BusOp.csDeactivate = 0 := by
  induction n generalizing k with
  | zero => simp [dataOps]
  | succ n ih => simp [dataOps, ih (k + 1)]

/-- One transfer activates chip-select once and deactivates it once. -/
theorem transferOps_cs (rx : Nat → Nat) (k : Nat) (c : List Nat) (n : Nat) :
    csActivations (transferOps rx k c n) = 1 ∧ csDeactivations (transferOps rx k c n) = 1 := by
  simp [csActivations, csDeactivations, transferOps, List.count_append, cmdOps_count,
    dataOps_count]

theorem dataBytes_getD (rx : Nat → Nat) (k n i : Nat) (h : i < n) :
    (dataBytes rx k n).getD i 0 = rx (k + i) % 256 := by
  induction n generalizing k i with
  | zero => omega
  | succ n ih =>
    cases i with
    | zero => simp [dataBytes]
    | succ i =>
      simp only [dataBytes, List.getD_cons_succ]
      rw [ih (k + 1) i (by omega)]
      congr 2
      omega

/-- C10. After probing a part that answers the ID read with the Atmel code
and an AT45 family byte, and the status read with density bits `0x2C` and bit 0
clear, the descriptor is the AT45DB161D one (4096 pages of 528 bytes, shift 10,
non-linear). A read of `len` bytes at `offset` into a non-null buffer then
returns `0`; its bus activity is one chip-select frame holding the
3-address-byte frame for `a = ((offset / 528) << 10) + offset % 528` followed
by `len` zero writes, so chip-select is activated once and deactivated once;
and the buffer's first `len` bytes are the bytes shifted in after the five
command bytes, in order, the rest of the buffer being untouched. The helper
`division` is any function that returns quotient and remainder for a non-zero
divisor. -/
theorem end_to_end_at45db161d_read (division : Nat → Nat → Nat × Nat)
    (hdiv : DivisionSpec division) (d0 : dataflash_descriptor) (s0 : Spi)
    (offset len : Nat) (buf : List Nat) (s : Spi)
    (hm : idByte s0 0 = 0x1F) (hf : idByte s0 1 &&& 0xE0 = 0x20)
    (hd : statusByte (afterIdRead s0) &&& 0x3C = 0x2C)
    (hb : statusByte (afterIdRead s0) % 2 = 0) :
    (dataflash_probe_atmel d0 s0).1 = 0
    ∧ (dataflash_probe_atmel d0 s0).2.1
        = { family := 0x20, pages := 4096, page_size := 528, page_offset := 10,
            is_power_2 := 0 }
    ∧ (dataflash_read_array division (dataflash_probe_atmel d0 s0).2.1 offset len (some buf) s).1 = 0
    ∧ (dataflash_read_array division (dataflash_probe_atmel d0 s0).2.1 offset len (some buf) s).2.1
        = some (dataBytes s.rx (s.nread + 5) len ++ buf.drop len)
    ∧ (∀ i, i < len → (dataBytes s.rx (s.nread + 5) len).getD i 0 = s.rx (s.nread + 5 + i) % 256)
    ∧ (dataflash_read_array division (dataflash_probe_atmel d0 s0).2.1 offset len (some buf) s).2.2.trace
        = s.trace ++ ([BusOp.csActivate, BusOp.readSr]
            ++ cmdOps s.rx s.nread (frame3 ((offset / 528) <<< 10 + offset % 528))
            ++ dataOps s.rx (s.nread + 5) len ++ [BusOp.csDeactivate])
    ∧ csActivations
        (dataflash_read_array division (dataflash_probe_atmel d0 s0).2.1 offset len (some buf) s).2.2.trace
        = csActivations s.trace + 1
    ∧ csDeactivations
        (dataflash_read_array division (dataflash_probe_atmel d0 s0).2.1 offset len (some buf) s).2.2.trace
        = csDeactivations s.trace + 1 := by
  have hb2 := hb
  simp only [afterIdRead] at hb2
  have hp : dataflash_probe_atmel d0 s0
      = (0, at45db161d,
         { rx := s0.rx, nread := s0.nread + 6 + 2,
           trace := (afterIdRead s0).trace
             ++ transferOps s0.rx (s0.nread + 6) [0xD7] 1 }) := by
    rw [probe_atmel d0 s0 hm, hf, df_desc_init_at45, df_at45_desc_init_eq,
      (at45_decode_listed _ _).2.2.2.2.1 hd]
    simp [afterIdRead, hb2, at45db161d]
  rw [hp]
  dsimp only
  refine ⟨rfl, rfl, ?_⟩
  have ha : read_address division at45db161d offset = ((offset / 528) <<< 10 + offset % 528) % 2 ^ 32 :=
    read_address_nonlinear division hdiv _ offset rfl (by decide)
  have hc : read_cmd at45db161d (read_address division at45db161d offset)
      = frame3 ((offset / 528) <<< 10 + offset % 528) := by
    rw [read_cmd_frame3 _ _ (Or.inr (Or.inr (by decide))), ha, frame3_mod]
  have hl : (frame3 ((offset / 528) <<< 10 + offset % 528)).length = 5 := rfl
  have hcs := transferOps_cs s.rx s.nread (frame3 ((offset / 528) <<< 10 + offset % 528)) len
  rw [read_array_eq, hc]
  refine ⟨rfl, rfl, fun i hi => dataBytes_getD _ _ _ _ hi, ?_, ?_, ?_⟩
  · simp only [transferOps, hl]
  · simp only [csActivations, transferOps, List.count_append] at hcs ⊢
    omega
  · simp only [csDeactivations, transferOps, List.count_append] at hcs ⊢
    omega

/-- C10 at offset 0 and length 1024 on a simulated AT45DB161D: the command
frame is `[0x0B, 0, 0, 0, 0]`, the read succeeds inside one chip-select frame,
and the buffer starts with the image bytes the part shifted in. -/
theorem end_to_end_at45db161d_read_witness :
    (idByte at45db161dProbeBus 0 = 0x1F ∧ idByte at45db161dProbeBus 1 &&& 0xE0 = 0x20
      ∧ statusByte (afterIdRead at45db161dProbeBus) &&& 0x3C = 0x2C
      ∧ statusByte (afterIdRead at45db161dProbeBus) % 2 = 0)
    ∧ (dataflash_probe_atmel desc0 at45db161dProbeBus).1 = 0
    ∧ (dataflash_read_array spec_division (dataflash_probe_atmel desc0 at45db161dProbeBus).2.1 0 1024
          (some (List.replicate 1024 0xFF)) imageBus).1 = 0
    ∧ frame3 ((0 / 528) <<< 10 + 0 % 528) = [0x0B, 0, 0, 0, 0]
    ∧ (dataflash_read_array spec_division (dataflash_probe_atmel desc0 at45db161dProbeBus).2.1 0 1024
          (some (List.replicate 1024 0xFF)) imageBus).2.2.trace
        = imageBus.trace ++ ([BusOp.csActivate, BusOp.readSr]
            ++ cmdOps imageBus.rx imageBus.nread [0x0B, 0, 0, 0, 0]
            ++ dataOps imageBus.rx (imageBus.nread + 5) 1024 ++ [BusOp.csDeactivate])
    ∧ (dataBytes imageBus.rx (imageBus.nread + 5) 1024).getD 0 0 = 0xDE
    ∧ (dataBytes imageBus.rx (imageBus.nread + 5) 1024).getD 3 0 = 0xEF
    ∧ csActivations
        (dataflash_read_array spec_division (dataflash_probe_atmel desc0 at45db161dProbeBus).2.1 0 1024
          (some (List.replicate 1024 0xFF)) imageBus).2.2.trace = csActivations imageBus.trace + 1
    ∧ csDeactivations
        (dataflash_read_array spec_division (dataflash_probe_atmel desc0 at45db161dProbeBus).2.1 0 1024
          (some (List.replicate 1024 0xFF)) imageBus).2.2.trace
        = csDeactivations imageBus.trace + 1 := by
  have h := end_to_end_at45db161d_read spec_division spec_division_ok desc0 at45db161dProbeBus 0 1024
    (List.replicate 1024 0xFF) imageBus (by decide) (by decide) (by decide) (by decide)
  have hf : frame3 ((0 / 528) <<< 10 + 0 % 528) = [0x0B, 0, 0, 0, 0] := by decide
  obtain ⟨h1, _, h3, _, h5, h6, h7, h8⟩ := h
  rw [hf] at h6
  refine ⟨by decide, h1, h3, hf, h6, ?_, ?_, h7, h8⟩
  · rw [h5 0 (by decide)]
    decide
  · rw [h5 3 (by decide)]
    decide

/-! ## Transport contract -/

theorem cmdLoop_take (n : Nat) (c : List Nat) (s : Spi) (h : n ≤ c.length) :
    cmdLoop n c s =
      { rx := s.rx, nread := s.nread + n, trace := s.trace ++ cmdOps s.rx s.nread (c.take n) } := by
  have hl : (c.take n).length = n := by simp [h]
  have e := cmdLoop_eq (c.take n) s
  rw [hl] at e
  rw [← e]
  clear e hl
  induction n generalizing c s with
  | zero => simp [cmdLoop]
  | succ n ih =>
    cases c with
    | nil => simp at h
    | cons b bs =>
      simp only [List.length_cons, Nat.add_le_add_iff_right] at h
      simp only [cmdLoop, List.tail_cons, List.headD_cons, List.take_succ_cons]
      exact ih bs _ h

/-- The three early returns of `df_send_command`: `-1`, the buffer and the bus
exactly as they were. -/
theorem df_send_command_rejects (cmd : Option (List Nat)) (cmd_len : Nat)
    (data : Option (List Nat)) (data_len : Nat) (s : Spi)
    (h : cmd = none ∨ cmd_len = 0 ∨ (0 < data_len ∧ data = none)) :
    df_send_command cmd cmd_len data data_len s = (-1, data, s) := by
  cases cmd with
  | none => rfl
  | some c =>
    rcases h with h | h | ⟨h1, h2⟩
    · exact absurd h (by simp)
    · simp [df_send_command, h]
    · have hd : data_len ≠ 0 := by omega
      simp only [df_send_command]
      by_cases hc : cmd_len = 0
      · rw [if_pos hc]
      · rw [if_neg hc, if_pos ⟨hd, h2⟩]

/-- A transfer that passes the three checks, in closed form. -/
theorem df_send_command_accepts (c : List Nat) (cmd_len : Nat)
    (data : Option (List Nat)) (data_len : Nat) (s : Spi)
    (hle : cmd_len ≤ c.length) (h0 : cmd_len ≠ 0) (hd : ¬ (0 < data_len ∧ data = none)) :
    df_send_command (some c) cmd_len data data_len s =
      (0, (if data_len = 0 then data
           else some (dataBytes s.rx (s.nread + cmd_len) data_len
                        ++ (data.getD []).drop data_len)),
       { rx := s.rx, nread := s.nread + cmd_len + data_len,
         trace := s.trace ++ ([BusOp.csActivate, BusOp.readSr]
           ++ cmdOps s.rx s.nread (c.take cmd_len)
           ++ dataOps s.rx (s.nread + cmd_len) data_len ++ [BusOp.csDeactivate]) }) := by
  have hd2 : ¬ (data_len ≠ 0 ∧ data = none) := fun ⟨a, b⟩ => hd ⟨by omega, b⟩
  simp only [df_send_command, if_neg h0, if_neg hd2]
  simp only [cmdLoop_take _ _ _ hle, dataLoop_eq, at91_spi_cs_activate, at91_spi_read_sr,
    at91_spi_cs_deactivate]
  simp [List.append_assoc]

/-- C11. `df_send_command` returns `-1` and leaves the bus untouched when the
command pointer is null, the command length is zero, or data is requested
into a null buffer. Otherwise it returns `0` and its bus activity is exactly:
chip-select activate, one status-register read, a write of each command byte
in order followed by a read whose value is dropped, then `data_len` times a
write of zero followed by a read whose value is stored at the next buffer
position, and chip-select deactivate. -/
theorem df_send_command_contract (cmd : Option (List Nat)) (cmd_len : Nat)
    (data : Option (List Nat)) (data_len : Nat) (s : Spi) :
    ((cmd = none ∨ cmd_len = 0 ∨ (0 < data_len ∧ data = none)) →
        (df_send_command cmd cmd_len data data_len s).1 = -1
        ∧ (df_send_command cmd cmd_len data data_len s).2.1 = data
        ∧ (df_send_command cmd cmd_len data data_len s).2.2 = s)
    ∧ (∀ c, cmd = some c → cmd_len ≤ c.length → cmd_len ≠ 0 →
        ¬ (0 < data_len ∧ data = none) →
        (df_send_command cmd cmd_len data data_len s).1 = 0
        ∧ (df_send_command cmd cmd_len data data_len s).2.2.trace
            = s.trace ++ ([BusOp.csActivate, BusOp.readSr]
                ++ cmdOps s.rx s.nread (c.take cmd_len)
                ++ dataOps s.rx (s.nread + cmd_len) data_len ++ [BusOp.csDeactivate])
        ∧ (∀ buf, data = some buf →
            (df_send_command cmd cmd_len data data_len s).2.1
              = some (dataBytes s.rx (s.nread + cmd_len) data_len ++ buf.drop data_len))
        ∧ (data = none → (df_send_command cmd cmd_len data data_len s).2.1 = none)
        ∧ (∀ i, i < data_len →
            (dataBytes s.rx (s.nread + cmd_len) data_len).getD i 0
              = s.rx (s.nread + cmd_len + i) % 256)) := by
  constructor
  · intro h
    rw [df_send_command_rejects cmd cmd_len data data_len s h]
    exact ⟨rfl, rfl, rfl⟩
  · intro c hc hle h0 hd
    subst hc
    rw [df_send_command_accepts c cmd_len data data_len s hle h0 hd]
    refine ⟨rfl, rfl, ?_, ?_, fun i hi => dataBytes_getD _ _ _ _ hi⟩
    · intro buf hb
      subst hb
      by_cases hn : data_len = 0
      · subst hn
        simp [dataBytes]
      · simp [hn]
    · intro hn
      subst hn
      have : data_len = 0 := by
        by_contra hne
        exact hd ⟨by omega, rfl⟩
      simp [this]

/-- C11 on a null command, and on the two-byte command `[0x01, 0x00]` with no
data. -/
theorem df_send_command_contract_witness :
    (df_send_command none 1 (some [0]) 1 (busOf [])).1 = -1
    ∧ (df_send_command none 1 (some [0]) 1 (busOf [])).2.2 = busOf []
    ∧ (df_send_command (some [0x01, 0x00]) 2 none 0 (busOf [5, 6])).1 = 0
    ∧ (df_send_command (some [0x01, 0x00]) 2 none 0 (busOf [5, 6])).2.2.trace
        = [BusOp.csActivate, BusOp.readSr, BusOp.writeData 0x01, BusOp.readSpi 5,
           BusOp.writeData 0x00, BusOp.readSpi 6, BusOp.csDeactivate] := by
  have h1 := (df_send_command_contract none 1 (some [0]) 1 (busOf [])).1 (Or.inl rfl)
  have h2 := (df_send_command_contract (some [0x01, 0x00]) 2 none 0 (busOf [5, 6])).2
    [0x01, 0x00] rfl (by decide) (by decide) (by decide)
  refine ⟨h1.1, h1.2.2, h2.1, ?_⟩
  rw [h2.2.1]
  decide

/-! ## Recovery erase: shared lemmas -/

theorem df_send_command_cmd_only (c : List Nat) (s : Spi) (hc : c ≠ []) :
    df_send_command (some c) c.length none 0 s = (0, none, afterCommand s c) := by
  have hl : c.length ≠ 0 := by
    cases c with
    | nil => exact absurd rfl hc
    | cons b bs => simp
  rw [df_send_command_accepts c c.length none 0 s (Nat.le_refl _) hl (by simp)]
  simp [afterCommand, transferOps, dataOps]

theorem df_read_status_at25_eq (st : Nat) (s : Spi) :
    df_read_status_at25 st s = (0, statusByte s, afterStatusRead s 0x05) := by
  have h := df_send_command_ok [CMD_READ_STATUS_AT25] [st] 1 s (by simp)
  simp only [List.length_singleton, CMD_READ_STATUS_AT25] at h
  simp [df_read_status_at25, CMD_READ_STATUS_AT25, h, dataBytes, statusByte, afterStatusRead]

theorem df_read_status_spsn_eq (st : Nat) (s : Spi) :
    df_read_status_spsn st s = (0, statusByte s, afterStatusRead s 0x05) := by
  have h := df_send_command_ok [CMD_READ_STATUS_SPSN] [st] 1 s (by simp)
  simp only [List.length_singleton, CMD_READ_STATUS_SPSN, CMD_READ_STATUS] at h
  simp [df_read_status_spsn, CMD_READ_STATUS_SPSN, CMD_READ_STATUS, h, dataBytes, statusByte,
    afterStatusRead]

theorem df_read_status_micron_eq (st : Nat) (s : Spi) :
    df_read_status_micron st s = (0, statusByte s, afterStatusRead s 0x70) := by
  have h := df_send_command_ok [CMD_READ_STATUS_MICRON] [st] 1 s (by simp)
  simp only [List.length_singleton, CMD_READ_STATUS_MICRON, CMD_FLAG_STATUS] at h
  simp [df_read_status_micron, CMD_READ_STATUS_MICRON, CMD_FLAG_STATUS, h, dataBytes,
    statusByte, afterStatusRead]

theorem df_read_status_at45_eq2 (st : Nat) (s : Spi) :
    df_read_status_at45 st s = (0, statusByte s, afterStatusRead s 0xD7) := by
  rw [df_read_status_at45_eq]
  rfl

theorem pollStatus_zero (p : Spi) : pollStatus p 0 = statusByte p := rfl

theorem pollStatus_after (p : Spi) (cmd i : Nat) :
    pollStatus (afterStatusRead p cmd) i = pollStatus p (i + 1) := by
  simp only [pollStatus, afterStatusRead]
  congr 2
  omega

theorem afterStatusReads_succ (p : Spi) (cmd n : Nat) :
    afterStatusReads (afterStatusRead p cmd) cmd n = afterStatusReads p cmd (n + 1) := by
  induction n with
  | zero => rfl
  | succ n ih => simp only [afterStatusReads, ih]

/-- The loop leaves at the first ready status read, with the budget that is
left. -/
theorem poll_loop_ready (rs : Nat → Spi → Int × Nat × Spi) (rdy : Nat → Bool) (cmd : Nat)
    (hrs : ∀ st s, rs st s = (0, statusByte s, afterStatusRead s cmd))
    (t i : Nat) (st : Nat) (s : Spi) (hi : i < t)
    (hnot : ∀ j, j < i → rdy (pollStatus s j) = false) (hr : rdy (pollStatus s i) = true) :
    poll_loop rs rdy t st s = (0, t - i, pollStatus s i, afterStatusReads s cmd (i + 1)) := by
  induction t generalizing i st s with
  | zero => omega
  | succ t ih =>
    simp only [poll_loop, hrs]
    cases i with
    | zero =>
      rw [pollStatus_zero] at hr
      simp [hr, pollStatus_zero, afterStatusReads]
    | succ i =>
      have h0 : rdy (statusByte s) = false := by
        have := hnot 0 (by omega)
        rwa [pollStatus_zero] at this
      have ht : t ≠ 0 := by omega
      simp only [ne_eq, not_true_eq_false, if_false, h0, Bool.false_eq_true, ht]
      rw [ih i (statusByte s) (afterStatusRead s cmd) (by omega)
        (fun j hj => by rw [pollStatus_after]; exact hnot (j + 1) (by omega))
        (by rw [pollStatus_after]; exact hr)]
      rw [pollStatus_after, afterStatusReads_succ]
      congr 2
      omega

/-- The loop runs the whole budget when no status read is ready. -/
theorem poll_loop_exhaust (rs : Nat → Spi → Int × Nat × Spi) (rdy : Nat → Bool) (cmd : Nat)
    (hrs : ∀ st s, rs st s = (0, statusByte s, afterStatusRead s cmd))
    (t : Nat) (st : Nat) (s : Spi) (ht : 0 < t)
    (hnot : ∀ j, j < t → rdy (pollStatus s j) = false) :
    poll_loop rs rdy t st s = (0, 0, pollStatus s (t - 1), afterStatusReads s cmd t) := by
  induction t generalizing st s with
  | zero => omega
  | succ t ih =>
    have h0 : rdy (statusByte s) = false := by
      have := hnot 0 (by omega)
      rwa [pollStatus_zero] at this
    simp only [poll_loop, hrs, ne_eq, not_true_eq_false, if_false, h0, Bool.false_eq_true]
    by_cases ht0 : t = 0
    · subst ht0
      simp [pollStatus_zero, afterStatusReads]
    · rw [if_neg ht0]
      rw [ih (statusByte s) (afterStatusRead s cmd) (by omega)
        (fun j hj => by rw [pollStatus_after]; exact hnot (j + 1) (by omega))]
      have e : t - 1 + 1 = t + 1 - 1 := by omega
      rw [pollStatus_after, afterStatusReads_succ, e]

theorem send1 (a : Nat) (s : Spi) :
    df_send_command (some [a]) 1 none 0 s = (0, none, afterCommand s [a]) :=
  df_send_command_cmd_only [a] s (by simp)

theorem send2 (a b : Nat) (s : Spi) :
    df_send_command (some [a, b]) 2 none 0 s = (0, none, afterCommand s [a, b]) :=
  df_send_command_cmd_only [a, b] s (by simp)

theorem send4 (a : Nat) (s : Spi) :
    df_send_command (some [a, 0, 0, 0]) 4 none 0 s = (0, none, afterCommand s [a, 0, 0, 0]) :=
  df_send_command_cmd_only [a, 0, 0, 0] s (by simp)

theorem at25_cmd_write_enbale_eq (s : Spi) :
    at25_cmd_write_enbale s = (0, afterCommand s [0x06]) := by
  simp [at25_cmd_write_enbale, CMD_WRITE_ENABLE_AT25, send1]

theorem at25_cmd_write_status_register_eq (st : Nat) (s : Spi) :
    at25_cmd_write_status_register st s = (0, afterCommand s [0x01, st]) := by
  simp [at25_cmd_write_status_register, CMD_WRITE_STATUS_AT25, send2]

theorem spsn_cmd_write_enable_eq (s : Spi) :
    spsn_cmd_write_enable s = (0, afterCommand s [0x06]) := by
  simp [spsn_cmd_write_enable, CMD_WRITE_ENABLE_SPSN, CMD_WRITE_ENABLE, send1]

theorem micron_cmd_write_enable_eq (s : Spi) :
    micron_cmd_write_enable s = (0, afterCommand s [0x06]) := by
  simp [micron_cmd_write_enable, CMD_WRITE_ENABLE_MICRON, CMD_WRITE_ENABLE, send1]

/-- A poll outcome follows from its two defining cases. -/
theorem pollOutcome_of (ready : Nat → Prop) (N cmd : Nat) (p : Spi) (ret : Int) (out : Spi)
    (hN : 0 < N)
    (F1 : ∀ i, i < N → (∀ j, j < i → ¬ ready (pollStatus p j)) → ready (pollStatus p i) →
      ret = 0 ∧ out = afterStatusReads p cmd (i + 1))
    (F2 : (∀ j, j < N → ¬ ready (pollStatus p j)) → ret = -1 ∧ out = afterStatusReads p cmd N) :
    PollOutcome ready N cmd p ret out := by
  refine ⟨fun h0 => F1 0 hN (fun j hj => absurd hj (Nat.not_lt_zero j)) h0, F1, F2, ?_, ?_⟩
  · intro hret
    by_contra hne
    have hall : ∀ j, j < N → ¬ ready (pollStatus p j) := fun j hj hr => hne ⟨j, hj, hr⟩
    have := (F2 hall).1
    rw [hret] at this
    exact absurd this (by decide)
  · rintro ⟨i, hi, hr⟩
    classical
    have hex : ∃ k, ready (pollStatus p k) := ⟨i, hr⟩
    have hle : Nat.find hex ≤ i := Nat.find_min' hex hr
    exact (F1 (Nat.find hex) (by omega) (fun j hj => Nat.find_min hex hj) (Nat.find_spec hex)).1

theorem erase_at45_outcome (s : Spi) :
    PollOutcome (fun st => st &&& 0x80 ≠ 0) 1000 0xD7 (afterCommand s [0x81, 0, 0, 0])
      (dataflash_page0_erase_at45 s).1 (dataflash_page0_erase_at45 s).2 := by
  have hb : ∀ st : Nat, ((st &&& STATUS_READY_AT45 != 0) = true) ↔ st &&& 0x80 ≠ 0 := by
    intro st
    simp [STATUS_READY_AT45]
  have hb2 : ∀ st : Nat, ((st &&& STATUS_READY_AT45 != 0) = false) ↔ ¬ st &&& 0x80 ≠ 0 := by
    intro st
    simp [STATUS_READY_AT45]
  apply pollOutcome_of _ _ _ _ _ _ (by decide)
  · intro i hi hnot hr
    have h := poll_loop_ready df_read_status_at45
      (fun status => status &&& STATUS_READY_AT45 != 0) 0xD7 df_read_status_at45_eq2 1000 i 0
      (afterCommand s [0x81, 0, 0, 0]) hi (fun j hj => (hb2 _).mpr (hnot j hj)) ((hb _).mpr hr)
    have hr2 : ¬ (pollStatus (afterCommand s [0x81, 0, 0, 0]) i &&& STATUS_READY_AT45 = 0) := by
      simpa [STATUS_READY_AT45] using hr
    simp [dataflash_page0_erase_at45, CMD_ERASE_PAGE_AT45, send4, udelay, h, hr2]
  · intro hnot
    have h := poll_loop_exhaust df_read_status_at45
      (fun status => status &&& STATUS_READY_AT45 != 0) 0xD7 df_read_status_at45_eq2 1000 0
      (afterCommand s [0x81, 0, 0, 0]) (by decide) (fun j hj => (hb2 _).mpr (hnot j hj))
    have hr2 : pollStatus (afterCommand s [0x81, 0, 0, 0]) (1000 - 1) &&& STATUS_READY_AT45 = 0 := by
      have := hnot 999 (by decide)
      simpa [STATUS_READY_AT45] using this
    simp [dataflash_page0_erase_at45, CMD_ERASE_PAGE_AT45, send4, udelay, h, hr2]

theorem erase_spsn_outcome (s : Spi) :
    PollOutcome (fun st => st &&& 0x01 = 0) 50000 0x05 (afterCommand (afterCommand s [0x06]) [0xD8, 0, 0, 0])
      (dataflash_sector0_erase_spsn s).1 (dataflash_sector0_erase_spsn s).2 := by
  have hb : ∀ st : Nat, ((st &&& STATUS_READY_SPSN == 0) = true) ↔ st &&& 0x01 = 0 := by
    intro st
    simp [STATUS_READY_SPSN, STATUS_WIP]
  have hb2 : ∀ st : Nat, ((st &&& STATUS_READY_SPSN == 0) = false) ↔ ¬ (st &&& 0x01 = 0) := by
    intro st
    simp [STATUS_READY_SPSN, STATUS_WIP]
  apply pollOutcome_of _ _ _ _ _ _ (by decide)
  · intro i hi hnot hr
    have h := poll_loop_ready df_read_status_spsn
      (fun st => st &&& STATUS_READY_SPSN == 0) 0x05 df_read_status_spsn_eq 50000 i 0
      (afterCommand (afterCommand s [0x06]) [0xD8, 0, 0, 0]) hi (fun j hj => (hb2 _).mpr (hnot j hj)) ((hb _).mpr hr)
    have ht : 50000 - i ≠ 0 := by omega
    simp [dataflash_sector0_erase_spsn, spsn_cmd_write_enable_eq, CMD_ERASE_SECTOR_SPSN, CMD_ERASE_64K, send4, udelay, h, ht]
  · intro hnot
    have h := poll_loop_exhaust df_read_status_spsn
      (fun st => st &&& STATUS_READY_SPSN == 0) 0x05 df_read_status_spsn_eq 50000 0
      (afterCommand (afterCommand s [0x06]) [0xD8, 0, 0, 0]) (by decide) (fun j hj => (hb2 _).mpr (hnot j hj))
    simp [dataflash_sector0_erase_spsn, spsn_cmd_write_enable_eq, CMD_ERASE_SECTOR_SPSN, CMD_ERASE_64K, send4, udelay, h]

theorem erase_micron_outcome (s : Spi) :
    PollOutcome (fun st => st &&& 0x80 ≠ 0) 50000 0x70 (afterCommand (afterCommand s [0x06]) [0xD8, 0, 0, 0])
      (dataflash_sector0_erase_micron s).1 (dataflash_sector0_erase_micron s).2 := by
  have hb : ∀ st : Nat, ((st &&& STATUS_READY_MICRON != 0) = true) ↔ st &&& 0x80 ≠ 0 := by
    intro st
    simp [STATUS_READY_MICRON]
  have hb2 : ∀ st : Nat, ((st &&& STATUS_READY_MICRON != 0) = false) ↔ ¬ (st &&& 0x80 ≠ 0) := by
    intro st
    simp [STATUS_READY_MICRON]
  apply pollOutcome_of _ _ _ _ _ _ (by decide)
  · intro i hi hnot hr
    have h := poll_loop_ready df_read_status_micron
      (fun st => st &&& STATUS_READY_MICRON != 0) 0x70 df_read_status_micron_eq 50000 i 0
      (afterCommand (afterCommand s [0x06]) [0xD8, 0, 0, 0]) hi (fun j hj => (hb2 _).mpr (hnot j hj)) ((hb _).mpr hr)
    have ht : 50000 - i ≠ 0 := by omega
    simp [dataflash_sector0_erase_micron, micron_cmd_write_enable_eq, CMD_ERASE_SECTOR_MICRON, CMD_ERASE_64K, send4, udelay, h, ht]
  · intro hnot
    have h := poll_loop_exhaust df_read_status_micron
      (fun st => st &&& STATUS_READY_MICRON != 0) 0x70 df_read_status_micron_eq 50000 0
      (afterCommand (afterCommand s [0x06]) [0xD8, 0, 0, 0]) (by decide) (fun j hj => (hb2 _).mpr (hnot j hj))
    simp [dataflash_sector0_erase_micron, micron_cmd_write_enable_eq, CMD_ERASE_SECTOR_MICRON, CMD_ERASE_64K, send4, udelay, h]

theorem erase_at25_outcome (s : Spi) (hu : (at25_unprotect s).1 = 0) :
    PollOutcome (fun st => st &&& 0x01 = 0) 1000 0x05 (afterCommand (afterCommand (at25_unprotect s).2 [0x06]) [0x20, 0, 0, 0])
      (dataflash_page0_erase_at25 s).1 (dataflash_page0_erase_at25 s).2 := by
  have hb : ∀ st : Nat, ((st &&& STATUS_READY_AT25 == 0) = true) ↔ st &&& 0x01 = 0 := by
    intro st
    simp [STATUS_READY_AT25]
  have hb2 : ∀ st : Nat, ((st &&& STATUS_READY_AT25 == 0) = false) ↔ ¬ (st &&& 0x01 = 0) := by
    intro st
    simp [STATUS_READY_AT25]
  apply pollOutcome_of _ _ _ _ _ _ (by decide)
  · intro i hi hnot hr
    have h := poll_loop_ready df_read_status_at25
      (fun st => st &&& STATUS_READY_AT25 == 0) 0x05 df_read_status_at25_eq 1000 i 0
      (afterCommand (afterCommand (at25_unprotect s).2 [0x06]) [0x20, 0, 0, 0]) hi (fun j hj => (hb2 _).mpr (hnot j hj)) ((hb _).mpr hr)
    have ht : 1000 - i ≠ 0 := by omega
    simp [dataflash_page0_erase_at25, hu, at25_cmd_write_enbale_eq, CMD_ERASE_BLOCK4K_AT25, send4, udelay, h, ht]
  · intro hnot
    have h := poll_loop_exhaust df_read_status_at25
      (fun st => st &&& STATUS_READY_AT25 == 0) 0x05 df_read_status_at25_eq 1000 0
      (afterCommand (afterCommand (at25_unprotect s).2 [0x06]) [0x20, 0, 0, 0]) (by decide) (fun j hj => (hb2 _).mpr (hnot j hj))
    simp [dataflash_page0_erase_at25, hu, at25_cmd_write_enbale_eq, CMD_ERASE_BLOCK4K_AT25, send4, udelay, h]

theorem erase_at25_unprotect_failed (s : Spi) (hu : (at25_unprotect s).1 ≠ 0) :
    dataflash_page0_erase_at25 s = at25_unprotect s := by
  simp [dataflash_page0_erase_at25, hu]

/-! ## AT25 unprotect -/

theorem at25_unprotect_clear (s : Spi) (h : statusByte s &&& 0x0C = 0) :
    at25_unprotect s = (0, afterStatusRead s 0x05) := by
  simp [at25_unprotect, df_read_status_at25_eq, STATUS_SWP_AT25, h]

theorem at25_unprotect_protected (s : Spi) (h : statusByte s &&& 0x0C ≠ 0) :
    at25_unprotect s =
      (if statusByte (beforeRecheck s) &&& 0x8C ≠ 0 then -1 else 0,
       afterStatusRead (beforeRecheck s) 0x05) := by
  have h2 : (0x80 : Nat) ||| 0x0C = 0x8C := by decide
  by_cases hl : statusByte s &&& 0x80 = 0
  · simp only [at25_unprotect, df_read_status_at25_eq, STATUS_SWP_AT25, STATUS_SPRL_AT25,
      at25_cmd_write_enbale_eq, at25_cmd_write_status_register_eq, beforeRecheck,
      afterWriteStatusZero]
    simp [h, hl, h2]
    split_ifs <;> rfl
  · simp only [at25_unprotect, df_read_status_at25_eq, STATUS_SWP_AT25, STATUS_SPRL_AT25,
      at25_cmd_write_enbale_eq, at25_cmd_write_status_register_eq, beforeRecheck,
      afterWriteStatusZero]
    simp [h, hl, h2]
    split_ifs <;> rfl

theorem and_8C_clear (x : Nat) (h : x &&& 0x8C = 0) : x &&& 0x0C = 0 ∧ x &&& 0x80 = 0 := by
  have e1 : x &&& 0x0C = (x &&& 0x8C) &&& 0x0C := by
    rw [Nat.and_assoc]
    rfl
  have e2 : x &&& 0x80 = (x &&& 0x8C) &&& 0x80 := by
    rw [Nat.and_assoc]
    rfl
  rw [e1, e2, h]
  exact ⟨rfl, rfl⟩

/-- C12, counterexample. On a part whose every answer is `0x0C` (protect bits
set and never cleared, bit 0 clear), every status read satisfies the AT25
ready condition, yet `dataflash_page0_erase_at25` returns `-1`: the unprotect
step fails and the poll loop is never entered (the bus activity is the two
status reads and the global unprotect of `at25_unprotect`). -/
theorem erase_at25_fails_before_polling :
    (∀ n, (stuckBus 0x0C).rx n % 256 &&& 0x01 = 0)
    ∧ (dataflash_page0_erase_at25 (stuckBus 0x0C)).1 = -1
    ∧ (dataflash_page0_erase_at25 (stuckBus 0x0C)).2.trace
        = [BusOp.csActivate, BusOp.readSr, BusOp.writeData 0x05, BusOp.readSpi 0x0C,
           BusOp.writeData 0, BusOp.readSpi 0x0C, BusOp.csDeactivate,
           BusOp.csActivate, BusOp.readSr, BusOp.writeData 0x06, BusOp.readSpi 0x0C,
           BusOp.csDeactivate,
           BusOp.csActivate, BusOp.readSr, BusOp.writeData 0x01, BusOp.readSpi 0x0C,
           BusOp.writeData 0x00, BusOp.readSpi 0x0C, BusOp.csDeactivate,
           BusOp.csActivate, BusOp.readSr, BusOp.writeData 0x05, BusOp.readSpi 0x0C,
           BusOp.writeData 0, BusOp.readSpi 0x0C, BusOp.csDeactivate] := by
  refine ⟨fun _ => (by decide : (0x0C : Nat) % 256 &&& 0x01 = 0), by decide, by decide⟩

/-- C12, amended. For the AT45, Spansion and Micron erase routines, and for
the AT25 routine once `at25_unprotect` has returned `0`, the poll phase that
follows the erase command behaves as `PollOutcome` says, with ready condition
and budget: AT45 bit 7 set, 1000; Spansion bit 0 clear, 50000; Micron bit 7
set, 50000; AT25 bit 0 clear, 1000. The routine returns `0` right after the
first ready status read among the first `N`, and `-1` after exactly `N` status
reads when none of them is ready. When `at25_unprotect` fails, the AT25
routine returns that failure without polling. -/
theorem erase_poll_contract (s : Spi) :
    PollOutcome (fun st => st &&& 0x80 ≠ 0) 1000 0xD7 (afterCommand s [0x81, 0, 0, 0])
      (dataflash_page0_erase_at45 s).1 (dataflash_page0_erase_at45 s).2
    ∧ PollOutcome (fun st => st &&& 0x01 = 0) 50000 0x05
      (afterCommand (afterCommand s [0x06]) [0xD8, 0, 0, 0])
      (dataflash_sector0_erase_spsn s).1 (dataflash_sector0_erase_spsn s).2
    ∧ PollOutcome (fun st => st &&& 0x80 ≠ 0) 50000 0x70
      (afterCommand (afterCommand s [0x06]) [0xD8, 0, 0, 0])
      (dataflash_sector0_erase_micron s).1 (dataflash_sector0_erase_micron s).2
    ∧ ((at25_unprotect s).1 = 0 →
        PollOutcome (fun st => st &&& 0x01 = 0) 1000 0x05
          (afterCommand (afterCommand (at25_unprotect s).2 [0x06]) [0x20, 0, 0, 0])
          (dataflash_page0_erase_at25 s).1 (dataflash_page0_erase_at25 s).2)
    ∧ ((at25_unprotect s).1 ≠ 0 → dataflash_page0_erase_at25 s = at25_unprotect s) :=
  ⟨erase_at45_outcome s, erase_spsn_outcome s, erase_micron_outcome s,
   erase_at25_outcome s, erase_at25_unprotect_failed s⟩

/-- C12 on an AT45 part that is ready at once (status `0x80` on the first
poll): one status read, success; and on a Micron part that never reports
ready: 50000 status reads, then `-1`. -/
theorem erase_poll_contract_witness :
    (dataflash_page0_erase_at45 (busOf [0, 0, 0, 0, 0, 0x80])).1 = 0
    ∧ (dataflash_page0_erase_at45 (busOf [0, 0, 0, 0, 0, 0x80])).2
        = afterStatusReads (afterCommand (busOf [0, 0, 0, 0, 0, 0x80]) [0x81, 0, 0, 0]) 0xD7 1
    ∧ (dataflash_sector0_erase_micron (stuckBus 0)).1 = -1
    ∧ (dataflash_sector0_erase_micron (stuckBus 0)).2
        = afterStatusReads
            (afterCommand (afterCommand (stuckBus 0) [0x06]) [0xD8, 0, 0, 0]) 0x70 50000 := by
  have h1 := (erase_poll_contract (busOf [0, 0, 0, 0, 0, 0x80])).1.1 (by decide)
  have h2 := (erase_poll_contract (stuckBus 0)).2.2.1.2.2.1
    (fun _ _ => (by decide : ¬ ((0 : Nat) % 256 &&& 0x80 ≠ 0)))
  exact ⟨h1.1, h1.2, h2.1, h2.2⟩

/-- C17, counterexample. On a part whose status is `0x80` (lock bit set, no
protect bit), `at25_unprotect` returns `0` after its single status read, and
that last status byte has the lock bit set. -/
theorem at25_unprotect_succeeds_with_lock_bit :
    (at25_unprotect (stuckBus 0x80)).1 = 0
    ∧ (at25_unprotect (stuckBus 0x80)).2.trace
        = [BusOp.csActivate, BusOp.readSr, BusOp.writeData 0x05, BusOp.readSpi 0x80,
           BusOp.writeData 0, BusOp.readSpi 0x80, BusOp.csDeactivate]
    ∧ lastStatusRead (stuckBus 0x80) = 0x80
    ∧ lastStatusRead (stuckBus 0x80) &&& 0x80 ≠ 0 := by
  refine ⟨by decide, by decide, by decide, by decide⟩

/-- C17, amended. With `s0` the first status byte read (opcode `0x05`): if
`s0` has no protect bit (`s0 & 0x0C = 0`) the routine returns `0` after that
single status read and writes nothing. Otherwise it issues write-enable and
write-status-zero once to clear the lock bit when `s0 & 0x80 ≠ 0`, then
write-enable and write-status-zero as the global unprotect, re-reads the
status and returns `0` exactly when the re-read status has none of the bits
`0x8C`, and `-1` otherwise. Whenever it returns `0` the last status byte it
read has the protect bits clear, and also the lock bit clear when `s0` had a
protect bit set. -/
theorem at25_unprotect_sequence (s : Spi) :
    (statusByte s &&& 0x0C = 0 → at25_unprotect s = (0, afterStatusRead s 0x05))
    ∧ (statusByte s &&& 0x0C ≠ 0 →
        (at25_unprotect s).2 = afterStatusRead (beforeRecheck s) 0x05
        ∧ ((at25_unprotect s).1 = 0 ↔ statusByte (beforeRecheck s) &&& 0x8C = 0)
        ∧ ((at25_unprotect s).1 ≠ 0 → (at25_unprotect s).1 = -1))
    ∧ (statusByte s &&& 0x80 ≠ 0 →
        beforeRecheck s = afterWriteStatusZero (afterWriteStatusZero (afterStatusRead s 0x05)))
    ∧ (statusByte s &&& 0x80 = 0 →
        beforeRecheck s = afterWriteStatusZero (afterStatusRead s 0x05))
    ∧ (∀ b : Spi, (afterWriteStatusZero b).trace
        = b.trace ++ [BusOp.csActivate, BusOp.readSr, BusOp.writeData 0x06,
                      BusOp.readSpi (b.rx b.nread), BusOp.csDeactivate,
                      BusOp.csActivate, BusOp.readSr, BusOp.writeData 0x01,
                      BusOp.readSpi (b.rx (b.nread + 1)), BusOp.writeData 0x00,
                      BusOp.readSpi (b.rx (b.nread + 2)), BusOp.csDeactivate])
    ∧ ((at25_unprotect s).1 = 0 → lastStatusRead s &&& 0x0C = 0)
    ∧ ((at25_unprotect s).1 = 0 → statusByte s &&& 0x0C ≠ 0 →
        lastStatusRead s &&& 0x80 = 0) := by
  have hp := at25_unprotect_protected s
  have hiff : statusByte s &&& 0x0C ≠ 0 →
      ((at25_unprotect s).1 = 0 ↔ statusByte (beforeRecheck s) &&& 0x8C = 0) := by
    intro h
    rw [hp h]
    by_cases hc : statusByte (beforeRecheck s) &&& 0x8C = 0
    · simp [hc]
    · simp [hc]
  refine ⟨at25_unprotect_clear s, fun h => ⟨?_, hiff h, ?_⟩, ?_, ?_, ?_, ?_, ?_⟩
  · rw [hp h]
  · rw [hp h]
    by_cases hc : statusByte (beforeRecheck s) &&& 0x8C = 0
    · simp [hc]
    · simp [hc]
  · intro h
    simp [beforeRecheck, h]
  · intro h
    simp [beforeRecheck, h]
  · intro b
    simp [afterWriteStatusZero, afterCommand, transferOps, cmdOps, dataOps, Nat.add_assoc]
  · intro h0
    by_cases h : statusByte s &&& 0x0C = 0
    · simp [lastStatusRead, h]
    · have := (hiff h).mp h0
      simp only [lastStatusRead, if_neg h]
      exact (and_8C_clear _ this).1
  · intro h0 h
    have := (hiff h).mp h0
    simp only [lastStatusRead, if_neg h]
    exact (and_8C_clear _ this).2

/-- C17 on a part whose status is `0x8C` at first (protect and lock bits set)
and `0x00` on the re-read: both write sequences are issued and the routine
returns `0`. -/
theorem at25_unprotect_sequence_witness :
    statusByte (busOf [0, 0x8C]) &&& 0x0C ≠ 0
    ∧ (at25_unprotect (busOf [0, 0x8C])).1 = 0
    ∧ (at25_unprotect (busOf [0, 0x8C])).2
        = afterStatusRead (afterWriteStatusZero (afterWriteStatusZero
            (afterStatusRead (busOf [0, 0x8C]) 0x05))) 0x05
    ∧ lastStatusRead (busOf [0, 0x8C]) &&& 0x8C = 0 := by
  have h := at25_unprotect_sequence (busOf [0, 0x8C])
  have hs : statusByte (busOf [0, 0x8C]) &&& 0x0C ≠ 0 := by decide
  have hb := h.2.2.1 (by decide)
  have h2 := h.2.1 hs
  refine ⟨hs, h2.2.1.mpr (by decide), ?_, by decide⟩
  rw [h2.1, hb]

/-! ## Recovery gate and loader -/

/-- C14, counterexample. With the button not pressed (pin level `1`)
`dataflash_recovery` returns `-1`, not the success value `0`. -/
theorem recovery_not_pressed_returns_failure :
    (dataflash_recovery 1 at25df321 (busOf [])).1 = -1
    ∧ (dataflash_recovery 1 at25df321 (busOf [])).1 ≠ 0 := by
  refine ⟨by decide, by decide⟩

theorem read_array_extends (dv : Nat → Nat → Nat × Nat) (d : dataflash_descriptor)
    (o n : Nat) (b : Option (List Nat)) (s : Spi) :
    ∃ t, (dataflash_read_array dv d o n b s).2.2.trace = s.trace ++ t := by
  by_cases h : 0 < n ∧ b = none
  · refine ⟨[], ?_⟩
    have := df_send_command_rejects (some (read_cmd d (read_address dv d o))) 5 b n s
      (Or.inr (Or.inr h))
    simp [dataflash_read_array, this]
  · have hl := read_cmd_length d (read_address dv d o)
    have := df_send_command_accepts (read_cmd d (read_address dv d o)) 5 b n s
      (by omega) (by decide) h
    refine ⟨[BusOp.csActivate, BusOp.readSr]
      ++ cmdOps s.rx s.nread (List.take 5 (read_cmd d (read_address dv d o)))
      ++ dataOps s.rx (s.nread + 5) n ++ [BusOp.csDeactivate], ?_⟩
    simp only [dataflash_read_array, this, ne_eq, not_true_eq_false, if_false]

theorem update_image_length_bus (cfg : Config) (env : Env) (d : dataflash_descriptor)
    (o : Nat) (b : Option (List Nat)) (k : Bool) (s : Spi) :
    (update_image_length cfg env d o b k s).2.2
      = (dataflash_read_array env.division d o d.page_size b s).2.2 := by
  simp only [update_image_length]
  split_ifs <;> rfl

theorem load_dataflash_probed (cfg : Config) (env : Env) (d0 : dataflash_descriptor)
    (image : image_info) (b : Board) (desc : dataflash_descriptor) (s1 : Spi)
    (hi : env.spi_init_ret = 0) (hp : dataflash_probe_atmel d0 b.spi = (0, desc, s1)) :
    load_dataflash cfg env d0 image b =
      (if cfg.dataflash_recovery = true ∧ (dataflash_recovery env.pin desc s1).1 = 0 then
        (-2, image,
          { spi := (dataflash_recovery env.pin desc s1).2,
            ctl := b.ctl ++ [CtlOp.hwInit, CtlOp.spiInit, CtlOp.spiEnable, CtlOp.spiDisable] })
      else
        ((load_images cfg env desc image
            (if cfg.dataflash_recovery then (dataflash_recovery env.pin desc s1).2 else s1)).1,
         (load_images cfg env desc image
            (if cfg.dataflash_recovery then (dataflash_recovery env.pin desc s1).2
              else s1)).2.2.1,
         { spi := (load_images cfg env desc image
              (if cfg.dataflash_recovery then (dataflash_recovery env.pin desc s1).2
                else s1)).2.2.2,
           ctl := b.ctl ++ [CtlOp.hwInit, CtlOp.spiInit, CtlOp.spiEnable]
              ++ (if (load_images cfg env desc image
                    (if cfg.dataflash_recovery then (dataflash_recovery env.pin desc s1).2
                      else s1)).2.1 then [CtlOp.spiDisable] else []) })) := by
  simp only [load_dataflash, at91_spi0_hw_init, at91_spi_init, at91_spi_enable,
    at91_spi_disable, hi, hp, ne_eq, not_true_eq_false, if_false]
  cases hc : cfg.dataflash_recovery
  · simp only [Bool.false_eq_true, false_and, if_false]
    split_ifs <;> simp [List.append_assoc]
  · simp only [true_and, if_true]
    split_ifs <;> simp [List.append_assoc]

theorem continues_refl (s : Spi) : Continues s s := ⟨[], by simp⟩

theorem continues_read (dv : Nat → Nat → Nat × Nat) (d : dataflash_descriptor)
    (o n : Nat) (b : Option (List Nat)) (s0 s : Spi) (h : Continues s0 s) :
    Continues s0 (dataflash_read_array dv d o n b s).2.2 := by
  obtain ⟨t, ht⟩ := h
  obtain ⟨u, hu⟩ := read_array_extends dv d o n b s
  exact ⟨t ++ u, by rw [hu, ht, List.append_assoc]⟩

/-- Whatever `load_images` does, it starts with the array read of the kernel
image offset: the bus it ends on continues the bus that read ends on. -/
theorem load_images_continues (cfg : Config) (env : Env) (d : dataflash_descriptor)
    (image : image_info) (s : Spi) :
    Continues
      (dataflash_read_array env.division d image.offset
        (if cfg.load_linux then d.page_size else image.length) image.dest s).2.2
      (load_images cfg env d image s).2.2.2 := by
  cases hL : cfg.load_linux
  · simp only [load_images, hL, Bool.false_eq_true, false_and, if_false]
    split_ifs
    · exact continues_refl _
    · exact continues_read _ _ _ _ _ _ _ (continues_refl _)
    · exact continues_read _ _ _ _ _ _ _ (continues_refl _)
    · exact continues_refl _
  · simp only [load_images, hL, true_and, if_true]
    split_ifs
    · rw [update_image_length_bus]
      exact continues_refl _
    · simp only [update_image_length_bus]
      exact continues_read _ _ _ _ _ _ _ (continues_refl _)
    · simp only [update_image_length_bus]
      exact continues_read _ _ _ _ _ _ _ (continues_read _ _ _ _ _ _ _ (continues_refl _))
    · simp only [update_image_length_bus]
      exact continues_read _ _ _ _ _ _ _
        (continues_read _ _ _ _ _ _ _ (continues_read _ _ _ _ _ _ _ (continues_refl _)))
    · simp only [update_image_length_bus]
      exact continues_read _ _ _ _ _ _ _
        (continues_read _ _ _ _ _ _ _ (continues_read _ _ _ _ _ _ _ (continues_refl _)))
    · simp only [update_image_length_bus]
      exact continues_read _ _ _ _ _ _ _ (continues_refl _)

theorem load_images_ret (cfg : Config) (env : Env) (d : dataflash_descriptor)
    (image : image_info) (s : Spi) :
    (load_images cfg env d image s).1 = 0 ∨ (load_images cfg env d image s).1 = -1 := by
  simp only [load_images]
  split_ifs <;> simp

/-- C14, amended. When the recovery button is not active (the pin reads
non-zero), `dataflash_recovery` issues no bus command, for every descriptor,
and returns `-1`. `load_dataflash` takes that value as "no recovery was done"
and continues the load: in a build with the recovery feature, after a
successful bus initialisation and probe, it does exactly what the build
without the feature does, namely the image reads of `load_images` on the bus
as the probe left it, the first bus activity being the array read at the
kernel image offset; it never returns the recovery code `-2`. -/
theorem recovery_not_pressed (pin : Nat) (d : dataflash_descriptor) (s : Spi)
    (h : pin ≠ 0) :
    dataflash_recovery pin d s = (-1, s)
    ∧ ∀ (cfg : Config) (env : Env) (d0 : dataflash_descriptor) (image : image_info)
        (b : Board) (desc : dataflash_descriptor) (s1 : Spi),
        cfg.dataflash_recovery = true → env.pin = pin → env.spi_init_ret = 0 →
        dataflash_probe_atmel d0 b.spi = (0, desc, s1) →
        load_dataflash cfg env d0 image b
            = ((load_images cfg env desc image s1).1, (load_images cfg env desc image s1).2.2.1,
               { spi := (load_images cfg env desc image s1).2.2.2,
                 ctl := b.ctl ++ [CtlOp.hwInit, CtlOp.spiInit, CtlOp.spiEnable]
                   ++ (if (load_images cfg env desc image s1).2.1 then [CtlOp.spiDisable]
                       else []) })
        ∧ load_dataflash cfg env d0 image b
            = load_dataflash { cfg with dataflash_recovery := false } env d0 image b
        ∧ (load_dataflash cfg env d0 image b).1 ≠ -2
        ∧ (∀ buf, image.dest = some buf →
            ∃ rest, (load_dataflash cfg env d0 image b).2.2.spi.trace
              = s1.trace ++ transferOps s1.rx s1.nread
                  (read_cmd desc (read_address env.division desc image.offset))
                  (if cfg.load_linux then desc.page_size else image.length) ++ rest) := by
  have hr : ∀ (d : dataflash_descriptor) (s : Spi), dataflash_recovery pin d s = (-1, s) := by
    intro d s
    simp [dataflash_recovery, h]
  refine ⟨hr d s, ?_⟩
  intro cfg env d0 image b desc s1 hc hpin hi hp
  have hl := load_dataflash_probed cfg env d0 image b desc s1 hi hp
  rw [hpin, hr, hc] at hl
  simp only [true_and, if_true] at hl
  rw [if_neg (by decide)] at hl
  have hl2 := load_dataflash_probed { cfg with dataflash_recovery := false } env d0 image b
    desc s1 hi hp
  simp only [Bool.false_eq_true, false_and, if_false] at hl2
  have him : load_images { cfg with dataflash_recovery := false } env desc image s1
      = load_images cfg env desc image s1 := rfl
  rw [him] at hl2
  refine ⟨hl, ?_, ?_, ?_⟩
  · rw [hl, hl2]
  · rw [hl]
    rcases load_images_ret cfg env desc image s1 with e | e
    · rw [e]
      decide
    · rw [e]
      decide
  · intro buf hb
    rw [hl]
    obtain ⟨t, ht⟩ := load_images_continues cfg env desc image s1
    rw [hb, read_array_eq] at ht
    exact ⟨t, ht⟩

/-- C14 on pin level `1`: the recovery step leaves the bus alone and returns
`-1`, and on a simulated AT25 part the load of a build with the recovery
feature goes on to read the image and returns `0`. -/
theorem recovery_not_pressed_witness :
    (1 : Nat) ≠ 0
    ∧ dataflash_recovery 1 at45db161d imageBus = (-1, imageBus)
    ∧ dataflash_probe_atmel desc0 (boardOf at25ImageBus).spi
        = (0, at25df321, afterIdRead at25ImageBus)
    ∧ load_dataflash cfgRecovery (envOf 1 0 0) desc0 image0 (boardOf at25ImageBus)
        = load_dataflash { cfgRecovery with dataflash_recovery := false } (envOf 1 0 0) desc0
            image0 (boardOf at25ImageBus)
    ∧ (load_dataflash cfgRecovery (envOf 1 0 0) desc0 image0 (boardOf at25ImageBus)).1 = 0
    ∧ (load_dataflash cfgRecovery (envOf 1 0 0) desc0 image0 (boardOf at25ImageBus)).2.1.dest
        = some [0xDE, 0xAD, 0xBE, 0xEF]
    ∧ (load_dataflash cfgRecovery (envOf 1 0 0) desc0 image0 (boardOf at25ImageBus)).2.2.ctl
        = [CtlOp.hwInit, CtlOp.spiInit, CtlOp.spiEnable, CtlOp.spiDisable] := by
  have hp : dataflash_probe_atmel desc0 (boardOf at25ImageBus).spi
      = (0, at25df321, afterIdRead at25ImageBus) := by
    have hm : idByte (boardOf at25ImageBus).spi 0 = 0x1F := by decide
    have hf : idByte (boardOf at25ImageBus).spi 1 &&& 0xE0 = 0x40 := by decide
    rw [probe_atmel _ _ hm, hf, df_desc_init_at25 _ _ _ (Or.inr rfl)]
    rfl
  have h := recovery_not_pressed 1 at45db161d imageBus (by decide)
  have hload := h.2 cfgRecovery (envOf 1 0 0) desc0 image0 (boardOf at25ImageBus) at25df321
    (afterIdRead at25ImageBus) rfl rfl rfl hp
  refine ⟨by decide, h.1, hp, hload.2.1, by decide, by decide, by decide⟩

/-- C13, counterexample. With the recovery feature compiled in and the button
pressed: on a part whose erase succeeds the load stops with `-2` and no array
read (no `0x0B` command) is issued; on a part whose erase fails (the AT25
unprotect step fails) the load goes on, reads the kernel image and returns
`0`. -/
theorem load_aborts_on_successful_erase :
    (dataflash_recovery 0 at45db161d (afterStatusRead (afterIdRead at45RecoveryBus) 0xD7)).1 = 0
    ∧ (load_dataflash cfgRecovery (envOf 0 0 0) desc0 image0 (boardOf at45RecoveryBus)).1 = -2
    ∧ BusOp.writeData 0x0B ∉
        (load_dataflash cfgRecovery (envOf 0 0 0) desc0 image0
          (boardOf at45RecoveryBus)).2.2.spi.trace
    ∧ (dataflash_recovery 0 at25df321 (afterIdRead at25ProtectedBus)).1 = -1
    ∧ (load_dataflash cfgRecovery (envOf 0 0 0) desc0 image0 (boardOf at25ProtectedBus)).1 = 0
    ∧ (load_dataflash cfgRecovery (envOf 0 0 0) desc0 image0
          (boardOf at25ProtectedBus)).2.1.dest = some [0xDE, 0xAD, 0xBE, 0xEF] := by
  refine ⟨by decide, by decide, by decide, by decide, by decide, by decide⟩

theorem ret_norm2 {β : Type} (r : Int × β) :
    (if r.1 ≠ 0 then r else (0, r.2)) = r := by
  by_cases h : r.1 = 0
  · rw [if_neg (not_not.mpr h)]
    exact Prod.ext h.symm rfl
  · rw [if_pos h]

theorem recovery_pressed (d : dataflash_descriptor) (s : Spi) :
    dataflash_recovery 0 d s =
      (if d.family = 0x00 ∨ d.family = 0x40 then dataflash_page0_erase_at25 s
       else if d.family = 0x02 then dataflash_sector0_erase_spsn s
       else if d.family = 0xBA then dataflash_sector0_erase_micron s
       else dataflash_page0_erase_at45 s) := by
  simp only [dataflash_recovery, if_true, DF_FAMILY_AT26F, DF_FAMILY_AT26DF,
    DF_FAMILY_S25FL512S, DF_FAMILY_N25Q, ret_norm2]

/-- C13, amended. With the recovery feature compiled in, the button pressed,
a successful bus initialisation and a successful probe: the recovery step
returns what the family's erase routine returns; when that is `0` (the erase
succeeded) `load_dataflash` stops with `-2`, disables the bus and issues no
bus command after the erase, so no array read; when it is non-zero (the erase
failed) the load goes on with the image reads, the first bus activity after
the erase being the array read at the kernel image offset. -/
theorem load_recovery_gate (cfg : Config) (env : Env) (d0 : dataflash_descriptor)
    (image : image_info) (b : Board) (desc : dataflash_descriptor) (s1 : Spi)
    (r : Int) (s2 : Spi)
    (hc : cfg.dataflash_recovery = true) (hpin : env.pin = 0) (hi : env.spi_init_ret = 0)
    (hp : dataflash_probe_atmel d0 b.spi = (0, desc, s1))
    (hr : dataflash_recovery env.pin desc s1 = (r, s2)) :
    ((r, s2) = (if desc.family = 0x00 ∨ desc.family = 0x40 then dataflash_page0_erase_at25 s1
                else if desc.family = 0x02 then dataflash_sector0_erase_spsn s1
                else if desc.family = 0xBA then dataflash_sector0_erase_micron s1
                else dataflash_page0_erase_at45 s1))
    ∧ (r = 0 →
        load_dataflash cfg env d0 image b
          = (-2, image,
             { spi := s2,
               ctl := b.ctl ++ [CtlOp.hwInit, CtlOp.spiInit, CtlOp.spiEnable, CtlOp.spiDisable] }))
    ∧ (r ≠ 0 →
        load_dataflash cfg env d0 image b
          = ((load_images cfg env desc image s2).1, (load_images cfg env desc image s2).2.2.1,
             { spi := (load_images cfg env desc image s2).2.2.2,
               ctl := b.ctl ++ [CtlOp.hwInit, CtlOp.spiInit, CtlOp.spiEnable]
                 ++ (if (load_images cfg env desc image s2).2.1 then [CtlOp.spiDisable]
                     else []) }))
    ∧ (r ≠ 0 → ∀ buf, image.dest = some buf →
        ∃ rest, (load_dataflash cfg env d0 image b).2.2.spi.trace
          = s2.trace ++ transferOps s2.rx s2.nread
              (read_cmd desc (read_address env.division desc image.offset))
              (if cfg.load_linux then desc.page_size else image.length) ++ rest) := by
  have hl := load_dataflash_probed cfg env d0 image b desc s1 hi hp
  rw [hr, hc] at hl
  simp only [true_and, if_true] at hl
  refine ⟨?_, ?_, ?_, ?_⟩
  · rw [← hr, hpin, recovery_pressed]
  · intro h0
    rw [hl, if_pos h0]
  · intro hne
    rw [hl, if_neg hne]
  · intro hne buf hb
    rw [hl, if_neg hne]
    obtain ⟨t, ht⟩ := load_images_continues cfg env desc image s2
    rw [hb, read_array_eq] at ht
    exact ⟨t, ht⟩

/-- C13 on the simulated AT45DB161D whose erase succeeds: the load returns
`-2` and the bus is left as the erase left it. -/
theorem load_recovery_gate_witness :
    (cfgRecovery.dataflash_recovery = true ∧ (envOf 0 0 0).pin = 0
      ∧ (envOf 0 0 0).spi_init_ret = 0)
    ∧ dataflash_probe_atmel desc0 (boardOf at45RecoveryBus).spi
        = (0, at45db161d, afterStatusRead (afterIdRead at45RecoveryBus) 0xD7)
    ∧ (dataflash_recovery 0 at45db161d (afterStatusRead (afterIdRead at45RecoveryBus) 0xD7)).1 = 0
    ∧ load_dataflash cfgRecovery (envOf 0 0 0) desc0 image0 (boardOf at45RecoveryBus)
        = (-2, image0,
           { spi := (dataflash_recovery 0 at45db161d
                      (afterStatusRead (afterIdRead at45RecoveryBus) 0xD7)).2,
             ctl := (boardOf at45RecoveryBus).ctl
                      ++ [CtlOp.hwInit, CtlOp.spiInit, CtlOp.spiEnable, CtlOp.spiDisable] }) := by
  have hp : dataflash_probe_atmel desc0 (boardOf at45RecoveryBus).spi
      = (0, at45db161d, afterStatusRead (afterIdRead at45RecoveryBus) 0xD7) := by
    have hm : idByte (boardOf at45RecoveryBus).spi 0 = 0x1F := by decide
    have hf : idByte (boardOf at45RecoveryBus).spi 1 &&& 0xE0 = 0x20 := by decide
    have hd : statusByte (afterIdRead (boardOf at45RecoveryBus).spi) &&& 0x3C = 0x2C := by
      decide
    rw [probe_atmel _ _ hm, hf, df_desc_init_at45, df_at45_desc_init_eq,
      (at45_decode_listed _ _).2.2.2.2.1 hd]
    rfl
  have h0 : (dataflash_recovery 0 at45db161d
      (afterStatusRead (afterIdRead at45RecoveryBus) 0xD7)).1 = 0 := by decide
  have h := load_recovery_gate cfgRecovery (envOf 0 0 0) desc0 image0 (boardOf at45RecoveryBus)
    at45db161d (afterStatusRead (afterIdRead at45RecoveryBus) 0xD7)
    (dataflash_recovery 0 at45db161d (afterStatusRead (afterIdRead at45RecoveryBus) 0xD7)).1
    (dataflash_recovery 0 at45db161d (afterStatusRead (afterIdRead at45RecoveryBus) 0xD7)).2
    rfl rfl rfl hp rfl
  exact ⟨⟨rfl, rfl, rfl⟩, hp, h0, h.2.1 h0⟩

/-- When the length inspection of the kernel image yields `-1`, `load_images`
leaves through the `return -1;` of line 846, not through `err_exit`. -/
theorem load_images_kernel_length_failure (cfg : Config) (env : Env)
    (d : dataflash_descriptor) (image : image_info) (s : Spi)
    (hL : cfg.load_linux = true)
    (h : (update_image_length cfg env d image.offset image.dest true s).1 = -1) :
    (load_images cfg env d image s).1 = -1 ∧ (load_images cfg env d image s).2.1 = false := by
  simp [load_images, hL, h]

/-- C15, failing input. Built with dynamic image sizing, on an AT25 part that
probes fine, with a kernel size inspection that answers `-1`:
`load_dataflash` returns `-1` after enabling the bus and never disables it
(the log ends with the enable). On the sibling failure path of an unknown
manufacturer the same build does disable the bus. -/
theorem load_leaves_bus_enabled :
    (load_dataflash cfgLinux (envOf 1 (-1) 0) desc0 imagePage (boardOf at25ProbeBus)).1 = -1
    ∧ (load_dataflash cfgLinux (envOf 1 (-1) 0) desc0 imagePage (boardOf at25ProbeBus)).2.2.ctl
        = [CtlOp.hwInit, CtlOp.spiInit, CtlOp.spiEnable]
    ∧ (load_dataflash cfgLinux (envOf 1 (-1) 0) desc0 imagePage (boardOf (busOf [0, 0xFF]))).1
        = -1
    ∧ (load_dataflash cfgLinux (envOf 1 (-1) 0) desc0 imagePage
          (boardOf (busOf [0, 0xFF]))).2.2.ctl
        = [CtlOp.hwInit, CtlOp.spiInit, CtlOp.spiEnable, CtlOp.spiDisable] := by
  have hp : dataflash_probe_atmel desc0 (boardOf at25ProbeBus).spi
      = (0, at25df321, afterIdRead at25ProbeBus) := by
    have hm : idByte (boardOf at25ProbeBus).spi 0 = 0x1F := by decide
    have hf : idByte (boardOf at25ProbeBus).spi 1 &&& 0xE0 = 0x40 := by decide
    rw [probe_atmel _ _ hm, hf, df_desc_init_at25 _ _ _ (Or.inr rfl)]
    rfl
  have hl := load_dataflash_probed cfgLinux (envOf 1 (-1) 0) desc0 imagePage
    (boardOf at25ProbeBus) at25df321 (afterIdRead at25ProbeBus) rfl hp
  have hu : (update_image_length cfgLinux (envOf 1 (-1) 0) at25df321 imagePage.offset
      imagePage.dest true (afterIdRead at25ProbeBus)).1 = -1 := by
    have hd : imagePage.dest = some (List.replicate 256 0) := rfl
    simp only [update_image_length, hd, read_array_eq]
    rfl
  have hk := load_images_kernel_length_failure cfgLinux (envOf 1 (-1) 0) at25df321 imagePage
    (afterIdRead at25ProbeBus) rfl hu
  have hc : cfgLinux.dataflash_recovery = false := rfl
  rw [hc] at hl
  simp only [Bool.false_eq_true, false_and, if_false, hk.1, hk.2] at hl
  rw [hl]
  refine ⟨rfl, rfl, by decide, by decide⟩

/-! ## AT45 densities and paged addressing -/

theorem at45_decode_density (d : dataflash_descriptor) (st : Nat)
    (h : (at45_decode d st).1 = 0) :
    st &&& 0x3C = 0x0C ∨ st &&& 0x3C = 0x14 ∨ st &&& 0x3C = 0x1C ∨ st &&& 0x3C = 0x24
      ∨ st &&& 0x3C = 0x2C ∨ st &&& 0x3C = 0x34 ∨ st &&& 0x3C = 0x3C := by
  by_contra hc
  rw [at45_decode_unlisted d st hc] at h
  exact absurd h (by decide)

/-- A successful `at45_decode` leaves one of the seven table entries. -/
theorem at45_decode_cases (d : dataflash_descriptor) (st : Nat)
    (h : (at45_decode d st).1 = 0) :
    geometry (at45_decode d st).2 ∈ at45Table
    ∧ (at45_decode d st).2.family = d.family
    ∧ (at45_decode d st).2.is_power_2 = (if st % 2 = 1 then 1 else 0) := by
  obtain ⟨l1, l2, l3, l4, l5, l6, l7⟩ := at45_decode_listed d st
  rcases at45_decode_density d st h with c | c | c | c | c | c | c
  · rw [l1 c]; simp [geometry, at45Table]
  · rw [l2 c]; simp [geometry, at45Table]
  · rw [l3 c]; simp [geometry, at45Table]
  · rw [l4 c]; simp [geometry, at45Table]
  · rw [l5 c]; simp [geometry, at45Table]
  · rw [l6 c]; simp [geometry, at45Table]
  · rw [l7 c]; simp [geometry, at45Table]

/-- C16, counterexample. A status byte with density bits `0x3C` is accepted by
`df_at45_desc_init`, and `0x3C` is above `0x20`. -/
theorem at45_density_above_0x20_accepted :
    statusByte (busOf [0, 0x3C]) &&& 0x3C = 0x3C
    ∧ (df_at45_desc_init desc0 (busOf [0, 0x3C])).1 = 0
    ∧ ¬ (0x0C ≤ statusByte (busOf [0, 0x3C]) &&& 0x3C
          ∧ statusByte (busOf [0, 0x3C]) &&& 0x3C ≤ 0x20) := by
  refine ⟨by decide, by decide, by decide⟩

/-- C16, amended. Every density code for which `df_at45_desc_init` succeeds
(the status byte masked by `0x3C`) lies between `0x0C` and `0x3C` inclusive. -/
theorem at45_density_range (d : dataflash_descriptor) (s : Spi)
    (h : (df_at45_desc_init d s).1 = 0) :
    0x0C ≤ statusByte s &&& 0x3C ∧ statusByte s &&& 0x3C ≤ 0x3C := by
  rw [df_at45_desc_init_eq] at h
  rcases at45_decode_density d (statusByte s) h with c | c | c | c | c | c | c <;>
    rw [c] <;> decide

/-- C16 at both ends of the range: the codes `0x0C` and `0x3C` are accepted. -/
theorem at45_density_range_witness :
    ((df_at45_desc_init desc0 (busOf [0, 0x0C])).1 = 0
      ∧ 0x0C ≤ statusByte (busOf [0, 0x0C]) &&& 0x3C
      ∧ statusByte (busOf [0, 0x0C]) &&& 0x3C ≤ 0x3C)
    ∧ ((df_at45_desc_init desc0 (busOf [0, 0x3C])).1 = 0
      ∧ 0x0C ≤ statusByte (busOf [0, 0x3C]) &&& 0x3C
      ∧ statusByte (busOf [0, 0x3C]) &&& 0x3C ≤ 0x3C) := by
  have e1 : (df_at45_desc_init desc0 (busOf [0, 0x0C])).1 = 0 := by decide
  have e2 : (df_at45_desc_init desc0 (busOf [0, 0x3C])).1 = 0 := by decide
  exact ⟨⟨e1, at45_density_range desc0 (busOf [0, 0x0C]) e1⟩,
    ⟨e2, at45_density_range desc0 (busOf [0, 0x3C]) e2⟩⟩

/-- Page/byte packing: when the page size fits under the shift and the pages
fit in 24 bits, the packed address of an in-range offset is below `2 ^ 24` and
gives back page index and byte-in-page. -/
theorem paged_pack (pg ps po o : Nat) (hps : 0 < ps) (h1 : ps ≤ 2 ^ po)
    (h2 : pg * 2 ^ po ≤ 2 ^ 24) (ho : o < pg * ps) :
    o / ps * 2 ^ po + o % ps < 2 ^ 24
    ∧ (o / ps * 2 ^ po + o % ps) / 2 ^ po = o / ps
    ∧ (o / ps * 2 ^ po + o % ps) % 2 ^ po = o % ps := by
  have hr : o % ps < 2 ^ po := Nat.lt_of_lt_of_le (Nat.mod_lt o hps) h1
  have hq : o / ps < pg := (Nat.div_lt_iff_lt_mul hps).mpr ho
  have hpos : 0 < 2 ^ po := Nat.pow_pos (by decide)
  refine ⟨?_, ?_, ?_⟩
  · have : (o / ps + 1) * 2 ^ po ≤ pg * 2 ^ po := Nat.mul_le_mul_right _ hq
    have e : (o / ps + 1) * 2 ^ po = o / ps * 2 ^ po + 2 ^ po := by ring
    omega
  · rw [Nat.add_comm, Nat.add_mul_div_right _ _ hpos, Nat.div_eq_of_lt hr, Nat.zero_add]
  · rw [Nat.add_comm, Nat.add_mul_mod_self_right, Nat.mod_eq_of_lt hr]

theorem at45Table_ok (g : Nat × Nat × Nat) (hg : g ∈ at45Table) :
    0 < g.2.1 ∧ g.2.1 ≤ 2 ^ g.2.2 ∧ g.1 * 2 ^ g.2.2 ≤ 2 ^ 24 ∧ g.1 ≤ 8192 ∧ g.2.2 < 32 := by
  simp only [at45Table, List.mem_cons, List.mem_singleton, List.not_mem_nil, or_false] at hg
  rcases hg with rfl | rfl | rfl | rfl | rfl | rfl | rfl <;> decide

/-- C18. For each entry of the AT45 table, i.e. for every geometry a
successful `df_at45_desc_init` can leave, `page_size ≤ 2 ^ page_offset`; and
for a descriptor with that geometry in non-linear mode, the address the reader
computes for an offset below `pages * page_size` is
`((o / page_size) << page_offset) + o % page_size` with no wrap-around, is
below `2 ^ 24`, gives back the page index by `>> page_offset` and the
byte-in-page by `mod 2 ^ page_offset`, and differs for different offsets. The
helper `division` is any function that returns quotient and remainder for a
non-zero divisor. -/
theorem at45_paged_addressing (division : Nat → Nat → Nat × Nat)
    (hdiv : DivisionSpec division) (d0 : dataflash_descriptor) (st : Nat)
    (hok : (at45_decode d0 st).1 = 0) :
    (∀ g, g ∈ at45Table → g.2.1 ≤ 2 ^ g.2.2)
    ∧ geometry (at45_decode d0 st).2 ∈ at45Table
    ∧ (at45_decode d0 st).2.page_size ≤ 2 ^ (at45_decode d0 st).2.page_offset
    ∧ ∀ d : dataflash_descriptor, geometry d = geometry (at45_decode d0 st).2 →
        d.is_power_2 = 0 →
        ∀ o1 o2, o1 < d.pages * d.page_size → o2 < d.pages * d.page_size →
          read_address division d o1 = (o1 / d.page_size) <<< d.page_offset + o1 % d.page_size
          ∧ read_address division d o1 < 2 ^ 24
          ∧ read_address division d o1 >>> d.page_offset = o1 / d.page_size
          ∧ read_address division d o1 % 2 ^ d.page_offset = o1 % d.page_size
          ∧ (o1 ≠ o2 → read_address division d o1 ≠ read_address division d o2) := by
  have hg := (at45_decode_cases d0 st hok).1
  have ht := at45Table_ok _ hg
  simp only [geometry] at ht
  refine ⟨fun g hg2 => (at45Table_ok g hg2).2.1, hg, ht.2.1, ?_⟩
  intro d hd hp o1 o2 ho1 ho2
  simp only [geometry, Prod.mk.injEq] at hd
  obtain ⟨e1, e2, e3⟩ := hd
  rw [← e1, ← e2, ← e3] at ht
  obtain ⟨hps, h1, h2, _, _⟩ := ht
  have key : ∀ o, o < d.pages * d.page_size →
      read_address division d o = o / d.page_size * 2 ^ d.page_offset + o % d.page_size := by
    intro o ho
    have hlt := (paged_pack d.pages d.page_size d.page_offset o hps h1 h2 ho).1
    rw [read_address_nonlinear division hdiv d o hp hps, Nat.shiftLeft_eq]
    exact Nat.mod_eq_of_lt (by omega)
  have p1 := paged_pack d.pages d.page_size d.page_offset o1 hps h1 h2 ho1
  have p2 := paged_pack d.pages d.page_size d.page_offset o2 hps h1 h2 ho2
  rw [key o1 ho1, key o2 ho2, Nat.shiftLeft_eq, Nat.shiftRight_eq_div_pow]
  refine ⟨rfl, p1.1, p1.2.1, p1.2.2, ?_⟩
  intro hne heq
  apply hne
  have q : o1 / d.page_size = o2 / d.page_size := by rw [← p1.2.1, ← p2.2.1, heq]
  have r : o1 % d.page_size = o2 % d.page_size := by rw [← p1.2.2, ← p2.2.2, heq]
  rw [← Nat.div_add_mod o1 d.page_size, ← Nat.div_add_mod o2 d.page_size, q, r]

/-- C18 on the AT45DB161D (status `0xAC`): offsets 527 and 528, the last byte
of page 0 and the first byte of page 1, go to the addresses 527 and 1024. -/
theorem at45_paged_addressing_witness :
    (DivisionSpec spec_division ∧ (at45_decode desc0 0xAC).1 = 0)
    ∧ (at45_decode desc0 0xAC).2.page_size ≤ 2 ^ (at45_decode desc0 0xAC).2.page_offset
    ∧ read_address spec_division at45db161d 527 = 527
    ∧ read_address spec_division at45db161d 528 = 1024
    ∧ read_address spec_division at45db161d 528 ≠ read_address spec_division at45db161d 527 := by
  have h := at45_paged_addressing spec_division spec_division_ok desc0 0xAC (by decide)
  have h2 := h.2.2.2 at45db161d (by decide) rfl 528 527 (by decide) (by decide)
  have h3 := h.2.2.2 at45db161d (by decide) rfl 527 528 (by decide) (by decide)
  refine ⟨⟨spec_division_ok, by decide⟩, h.2.2.1, ?_, ?_, h2.2.2.2.2 (by decide)⟩
  · rw [h3.1]
    decide
  · rw [h2.1]
    decide

/-! ## Probed descriptors -/

/-- What a successful `df_desc_init` leaves, by family. -/
theorem df_desc_init_success (d : dataflash_descriptor) (family : Nat) (s : Spi)
    (h : (df_desc_init d family s).1 = 0) :
    ((family = 0x00 ∨ family = 0x40)
        ∧ (df_desc_init d family s).2.1
            = { family := family, pages := 16384, page_size := 256, page_offset := 0,
                is_power_2 := 1 })
    ∨ (family = 0x02
        ∧ (df_desc_init d family s).2.1
            = { family := 0x02, pages := 50000, page_size := 512, page_offset := 0,
                is_power_2 := 1 })
    ∨ (family = 0xBA
        ∧ (df_desc_init d family s).2.1
            = { family := 0xBA, pages := 50000, page_size := 256, page_offset := 0,
                is_power_2 := 1 })
    ∨ (family = 0x20
        ∧ (df_desc_init d family s).2.1.family = 0x20
        ∧ geometry (df_desc_init d family s).2.1 ∈ at45Table) := by
  by_cases h0 : family = 0x00
  · exact Or.inl ⟨Or.inl h0, by rw [df_desc_init_at25 d family s (Or.inl h0)]⟩
  by_cases h1 : family = 0x40
  · exact Or.inl ⟨Or.inr h1, by rw [df_desc_init_at25 d family s (Or.inr h1)]⟩
  by_cases h3 : family = 0x02
  · subst h3
    exact Or.inr (Or.inl ⟨rfl, by rw [df_desc_init_spsn]⟩)
  by_cases h4 : family = 0xBA
  · subst h4
    exact Or.inr (Or.inr (Or.inl ⟨rfl, by rw [df_desc_init_micron]⟩))
  by_cases h2 : family = 0x20
  · subst h2
    rw [df_desc_init_at45, df_at45_desc_init_eq] at h ⊢
    have hc := at45_decode_cases _ _ h
    exact Or.inr (Or.inr (Or.inr ⟨rfl, hc.2.1, hc.1⟩))
  · rw [df_desc_init_unsupported d family s h0 h1 h2 h3 h4] at h
    exact absurd h (by simp)

/-- A successful probe saw one of the three manufacturer codes, and its
descriptor is what `df_desc_init` leaves for the family derived from byte 1. -/
theorem probe_success (d : dataflash_descriptor) (s : Spi)
    (h : (dataflash_probe_atmel d s).1 = 0) :
    (idByte s 0 = 0x1F
        ∧ dataflash_probe_atmel d s = df_desc_init d (idByte s 1 &&& 0xE0) (afterIdRead s))
    ∨ ((idByte s 0 = 0x01 ∨ idByte s 0 = 0x20)
        ∧ dataflash_probe_atmel d s = df_desc_init d (idByte s 1) (afterIdRead s)) := by
  by_cases h1 : idByte s 0 = 0x1F
  · exact Or.inl ⟨h1, probe_atmel d s h1⟩
  by_cases h2 : idByte s 0 = 0x01
  · exact Or.inr ⟨Or.inl h2, probe_spansion_micron d s (Or.inl h2)⟩
  by_cases h3 : idByte s 0 = 0x20
  · exact Or.inr ⟨Or.inr h3, probe_spansion_micron d s (Or.inr h3)⟩
  · rw [probe_unsupported d s h1 h2 h3] at h
    exact absurd h (by simp)

theorem masked_family_not_spsn_micron (x : Nat) : x &&& 0xE0 ≠ 0x02 ∧ x &&& 0xE0 ≠ 0xBA := by
  have e : (x &&& 0xE0) &&& 0x02 = 0 := by
    rw [Nat.and_assoc]
    exact Nat.and_zero x
  constructor
  · intro h
    rw [h] at e
    exact absurd e (by decide)
  · intro h
    rw [h] at e
    exact absurd e (by decide)

/-- C19, counterexample. An ID response with the Micron manufacturer code
`0x20` and byte 1 equal to `0x02` is probed successfully as family S25FL512S
(`0x02`), although byte 0 is not the Spansion code; likewise a Spansion
manufacturer code `0x01` with byte 1 equal to `0x40` gives the Atmel family
AT26DF. -/
theorem probe_accepts_foreign_family :
    idByte (busOf [0, 0x20, 0x02]) 0 = 0x20
    ∧ (dataflash_probe_atmel desc0 (busOf [0, 0x20, 0x02])).1 = 0
    ∧ (dataflash_probe_atmel desc0 (busOf [0, 0x20, 0x02])).2.1.family = 0x02
    ∧ idByte (busOf [0, 0x01, 0x40]) 0 = 0x01
    ∧ (dataflash_probe_atmel desc0 (busOf [0, 0x01, 0x40])).1 = 0
    ∧ (dataflash_probe_atmel desc0 (busOf [0, 0x01, 0x40])).2.1.family = 0x40 := by
  refine ⟨by decide, by decide, by decide, by decide, by decide, by decide⟩

/-- C19, amended. Whenever the probe succeeds, byte 0 of the ID response is one
of the three manufacturer codes and the family is one of the five supported
codes. If byte 0 is the Atmel code the family is an Atmel one (`0x00`, `0x20`
or `0x40`), so the families S25FL512S and N25Q occur only with the Spansion or
the Micron code. With the Spansion or the Micron code the family is byte 1 as
it is, not checked against the manufacturer. -/
theorem probe_family_consistency (d : dataflash_descriptor) (s : Spi)
    (h : (dataflash_probe_atmel d s).1 = 0) :
    (idByte s 0 = 0x1F ∨ idByte s 0 = 0x01 ∨ idByte s 0 = 0x20)
    ∧ ((dataflash_probe_atmel d s).2.1.family = 0x00
        ∨ (dataflash_probe_atmel d s).2.1.family = 0x40
        ∨ (dataflash_probe_atmel d s).2.1.family = 0x20
        ∨ (dataflash_probe_atmel d s).2.1.family = 0x02
        ∨ (dataflash_probe_atmel d s).2.1.family = 0xBA)
    ∧ (idByte s 0 = 0x1F →
        (dataflash_probe_atmel d s).2.1.family = 0x00
        ∨ (dataflash_probe_atmel d s).2.1.family = 0x20
        ∨ (dataflash_probe_atmel d s).2.1.family = 0x40)
    ∧ ((dataflash_probe_atmel d s).2.1.family = 0x02
        ∨ (dataflash_probe_atmel d s).2.1.family = 0xBA →
        idByte s 0 = 0x01 ∨ idByte s 0 = 0x20)
    ∧ (idByte s 0 = 0x01 ∨ idByte s 0 = 0x20 →
        (dataflash_probe_atmel d s).2.1.family = idByte s 1) := by
  have five : ∀ f b, (df_desc_init d f b).1 = 0 →
      f = 0x00 ∨ f = 0x40 ∨ f = 0x20 ∨ f = 0x02 ∨ f = 0xBA := by
    intro f b hf
    rcases df_desc_init_success d f b hf with ⟨h0 | h0, _⟩ | ⟨h0, _⟩ | ⟨h0, _⟩ | ⟨h0, _⟩
    · exact Or.inl h0
    · exact Or.inr (Or.inl h0)
    · exact Or.inr (Or.inr (Or.inr (Or.inl h0)))
    · exact Or.inr (Or.inr (Or.inr (Or.inr h0)))
    · exact Or.inr (Or.inr (Or.inl h0))
  rcases probe_success d s h with ⟨hm, he⟩ | ⟨hm, he⟩
  · rw [he] at h ⊢
    rw [df_desc_init_family]
    have hf := five _ _ h
    have hn := masked_family_not_spsn_micron (idByte s 1)
    refine ⟨Or.inl hm, hf, ?_, ?_, ?_⟩
    · intro _
      rcases hf with c | c | c | c | c
      · exact Or.inl c
      · exact Or.inr (Or.inr c)
      · exact Or.inr (Or.inl c)
      · exact absurd c hn.1
      · exact absurd c hn.2
    · rintro (c | c)
      · exact absurd c hn.1
      · exact absurd c hn.2
    · rintro (c | c)
      · rw [hm] at c
        exact absurd c (by decide)
      · rw [hm] at c
        exact absurd c (by decide)
  · rw [he] at h ⊢
    rw [df_desc_init_family]
    refine ⟨Or.inr hm, five _ _ h, ?_, fun _ => hm, fun _ => rfl⟩
    intro c
    rcases hm with m | m
    · rw [m] at c
      exact absurd c (by decide)
    · rw [m] at c
      exact absurd c (by decide)

/-- C19 on an Atmel AT45 ID response, and on a Micron N25Q one. -/
theorem probe_family_consistency_witness :
    (dataflash_probe_atmel desc0 at45db161dProbeBus).1 = 0
    ∧ ((dataflash_probe_atmel desc0 at45db161dProbeBus).2.1.family = 0x00
        ∨ (dataflash_probe_atmel desc0 at45db161dProbeBus).2.1.family = 0x20
        ∨ (dataflash_probe_atmel desc0 at45db161dProbeBus).2.1.family = 0x40)
    ∧ (dataflash_probe_atmel desc0 (busOf [0, 0x20, 0xBA])).1 = 0
    ∧ (dataflash_probe_atmel desc0 (busOf [0, 0x20, 0xBA])).2.1.family
        = idByte (busOf [0, 0x20, 0xBA]) 1 := by
  have e1 : (dataflash_probe_atmel desc0 at45db161dProbeBus).1 = 0 := by decide
  have e2 : (dataflash_probe_atmel desc0 (busOf [0, 0x20, 0xBA])).1 = 0 := by decide
  exact ⟨e1, (probe_family_consistency desc0 at45db161dProbeBus e1).2.2.1 (by decide),
    e2, (probe_family_consistency desc0 (busOf [0, 0x20, 0xBA]) e2).2.2.2.2
      (Or.inr (by decide))⟩

/-- C20. Every descriptor a successful probe produces has a positive page
size, is non-linear only in the AT45 family, and has at most 16384 pages
unless its family is S25FL512S or N25Q. Hence the 4-address-byte branch of the
reader is never taken for it: for every offset the command bytes are the
3-address-byte frame with a dummy byte, and that is what a read puts on the
wire. -/
theorem probed_descriptor_invariant (division : Nat → Nat → Nat × Nat)
    (d : dataflash_descriptor) (s : Spi)
    (h : (dataflash_probe_atmel d s).1 = 0) :
    0 < (dataflash_probe_atmel d s).2.1.page_size
    ∧ ((dataflash_probe_atmel d s).2.1.is_power_2 = 0 →
        (dataflash_probe_atmel d s).2.1.family = 0x20)
    ∧ ((dataflash_probe_atmel d s).2.1.family ≠ 0x02 →
        (dataflash_probe_atmel d s).2.1.family ≠ 0xBA →
        (dataflash_probe_atmel d s).2.1.pages ≤ 16384)
    ∧ ¬ ((dataflash_probe_atmel d s).2.1.family ≠ 0x02
          ∧ (dataflash_probe_atmel d s).2.1.family ≠ 0xBA
          ∧ (dataflash_probe_atmel d s).2.1.pages > 16384)
    ∧ (∀ a, read_cmd (dataflash_probe_atmel d s).2.1 a
        = [0x0B, (a >>> 16) &&& 0xFF, (a >>> 8) &&& 0xFF, a &&& 0xFF, 0x00])
    ∧ (∀ offset len buf (b : Spi),
        (dataflash_read_array division (dataflash_probe_atmel d s).2.1 offset len
            (some buf) b).2.2.trace
          = b.trace ++ transferOps b.rx b.nread
              (frame3 (read_address division (dataflash_probe_atmel d s).2.1 offset)) len) := by
  have key : 0 < (dataflash_probe_atmel d s).2.1.page_size
      ∧ ((dataflash_probe_atmel d s).2.1.is_power_2 = 0 →
          (dataflash_probe_atmel d s).2.1.family = 0x20)
      ∧ ((dataflash_probe_atmel d s).2.1.family = 0x02
          ∨ (dataflash_probe_atmel d s).2.1.family = 0xBA
          ∨ (dataflash_probe_atmel d s).2.1.pages ≤ 16384) := by
    have init : ∀ f b, (df_desc_init d f b).1 = 0 →
        0 < (df_desc_init d f b).2.1.page_size
        ∧ ((df_desc_init d f b).2.1.is_power_2 = 0 → (df_desc_init d f b).2.1.family = 0x20)
        ∧ ((df_desc_init d f b).2.1.family = 0x02 ∨ (df_desc_init d f b).2.1.family = 0xBA
            ∨ (df_desc_init d f b).2.1.pages ≤ 16384) := by
      intro f b hf
      rcases df_desc_init_success d f b hf with ⟨_, e⟩ | ⟨_, e⟩ | ⟨_, e⟩ | ⟨_, e1, e2⟩
      · rw [e]
        exact ⟨by simp, fun c => absurd c (by simp), Or.inr (Or.inr (Nat.le_refl _))⟩
      · rw [e]
        exact ⟨by decide, fun c => absurd c (by decide), Or.inl rfl⟩
      · rw [e]
        exact ⟨by decide, fun c => absurd c (by decide), Or.inr (Or.inl rfl)⟩
      · have ht := at45Table_ok _ e2
        simp only [geometry] at ht
        exact ⟨ht.1, fun _ => e1, Or.inr (Or.inr (by omega))⟩
    rcases probe_success d s h with ⟨_, he⟩ | ⟨_, he⟩
    · rw [he] at h ⊢
      exact init _ _ h
    · rw [he] at h ⊢
      exact init _ _ h
  obtain ⟨k1, k2, k3⟩ := key
  refine ⟨k1, k2, ?_, ?_, ?_, ?_⟩
  · intro n1 n2
    rcases k3 with c | c | c
    · exact absurd c n1
    · exact absurd c n2
    · exact c
  · rintro ⟨n1, n2, n3⟩
    rcases k3 with c | c | c
    · exact n1 c
    · exact n2 c
    · omega
  · intro a
    exact read_cmd_frame3 _ a k3
  · intro offset len buf b
    rw [read_array_eq, read_cmd_frame3 _ _ k3]

/-- C20 on the simulated AT45DB161D: the probed descriptor is non-linear with
page size 528, and a read at offset 530 sends the address bytes of 1026. -/
theorem probed_descriptor_invariant_witness :
    (dataflash_probe_atmel desc0 at45db161dProbeBus).1 = 0
    ∧ 0 < (dataflash_probe_atmel desc0 at45db161dProbeBus).2.1.page_size
    ∧ (dataflash_probe_atmel desc0 at45db161dProbeBus).2.1.family = 0x20
    ∧ read_cmd (dataflash_probe_atmel desc0 at45db161dProbeBus).2.1 1026
        = [0x0B, 0x00, 0x04, 0x02, 0x00] := by
  have e : (dataflash_probe_atmel desc0 at45db161dProbeBus).1 = 0 := by decide
  have h := probed_descriptor_invariant spec_division desc0 at45db161dProbeBus e
  refine ⟨e, h.1, h.2.1 (by decide), ?_⟩
  rw [h.2.2.2.2.1 1026]
  decide

/-! ## Probe: failure conditions -/

theorem probe_supported (d : dataflash_descriptor) (s : Spi)
    (h : idByte s 0 = 0x1F ∨ idByte s 0 = 0x01 ∨ idByte s 0 = 0x20) :
    dataflash_probe_atmel d s = df_desc_init d (derivedFamily s) (afterIdRead s) := by
  rcases h with h | h | h
  · rw [probe_atmel d s h]
    simp [derivedFamily, h]
  · rw [probe_spansion_micron d s (Or.inl h)]
    simp [derivedFamily, h]
  · rw [probe_spansion_micron d s (Or.inr h)]
    simp [derivedFamily, h]

/-- `df_desc_init` fails exactly on an unsupported family code and on the AT45
family with an unlisted density, and then with `-1`. -/
theorem df_desc_init_fail_iff (d : dataflash_descriptor) (f : Nat) (b : Spi) :
    ((df_desc_init d f b).1 ≠ 0 ↔
      (f ≠ 0x00 ∧ f ≠ 0x40 ∧ f ≠ 0x20 ∧ f ≠ 0x02 ∧ f ≠ 0xBA)
      ∨ (f = 0x20
          ∧ ¬ (statusByte b &&& 0x3C = 0x0C ∨ statusByte b &&& 0x3C = 0x14
                ∨ statusByte b &&& 0x3C = 0x1C ∨ statusByte b &&& 0x3C = 0x24
                ∨ statusByte b &&& 0x3C = 0x2C ∨ statusByte b &&& 0x3C = 0x34
                ∨ statusByte b &&& 0x3C = 0x3C)))
    ∧ ((df_desc_init d f b).1 ≠ 0 → (df_desc_init d f b).1 = -1) := by
  by_cases h0 : f = 0x00
  · rw [df_desc_init_at25 d f b (Or.inl h0)]
    subst h0
    simp
  by_cases h1 : f = 0x40
  · rw [df_desc_init_at25 d f b (Or.inr h1)]
    subst h1
    simp
  by_cases h3 : f = 0x02
  · subst h3
    rw [df_desc_init_spsn]
    simp
  by_cases h4 : f = 0xBA
  · subst h4
    rw [df_desc_init_micron]
    simp
  by_cases h2 : f = 0x20
  · subst h2
    rw [df_desc_init_at45, df_at45_desc_init_eq]
    have hu := at45_decode_unlisted { d with family := 0x20 } (statusByte b)
    have hd := at45_decode_density { d with family := 0x20 } (statusByte b)
    constructor
    · constructor
      · intro hne
        exact Or.inr ⟨rfl, fun hc => hne (by
          by_contra hn
          exact hn (by
            obtain ⟨l1, l2, l3, l4, l5, l6, l7⟩ :=
              at45_decode_listed { d with family := 0x20 } (statusByte b)
            rcases hc with c | c | c | c | c | c | c
            · rw [l1 c]
            · rw [l2 c]
            · rw [l3 c]
            · rw [l4 c]
            · rw [l5 c]
            · rw [l6 c]
            · rw [l7 c]))⟩
      · rintro (⟨_, _, c, _⟩ | ⟨_, hc⟩)
        · exact absurd rfl c
        · intro h0'
          exact hc (hd h0')
    · intro hne
      exact hu (fun hc => hne (by
        obtain ⟨l1, l2, l3, l4, l5, l6, l7⟩ :=
          at45_decode_listed { d with family := 0x20 } (statusByte b)
        rcases hc with c | c | c | c | c | c | c
        · rw [l1 c]
        · rw [l2 c]
        · rw [l3 c]
        · rw [l4 c]
        · rw [l5 c]
        · rw [l6 c]
        · rw [l7 c]))
  · rw [df_desc_init_unsupported d f b h0 h1 h2 h3 h4]
    simp [h0, h1, h2, h3, h4]

/-- C21. The two transfers of the probe, the ID read and the AT45 status
read, pass a non-null one-byte command and a non-null buffer, and every such
transfer returns `0`. So `dataflash_probe_atmel` fails exactly when byte 0 of
the ID response is none of `0x1F`, `0x01`, `0x20`, or the derived family code
is none of `0x00`, `0x40`, `0x20`, `0x02`, `0xBA`, or the family is AT45 and
the status byte masked by `0x3C` is none of the seven density codes; and when
it fails it returns `-1`. -/
theorem probe_failure_iff (d : dataflash_descriptor) (s : Spi) :
    (df_send_command (some [CMD_READ_DEV_ID]) 1 (some [0, 0, 0, 0, 0]) 5 s).1 = 0
    ∧ (∀ st b, (df_read_status_at45 st b).1 = 0)
    ∧ (∀ (c buf : List Nat) (n : Nat) (b : Spi), c ≠ [] →
        (df_send_command (some c) c.length (some buf) n b).1 = 0)
    ∧ ((dataflash_probe_atmel d s).1 ≠ 0 ↔
        (idByte s 0 ≠ 0x1F ∧ idByte s 0 ≠ 0x01 ∧ idByte s 0 ≠ 0x20)
        ∨ (derivedFamily s ≠ 0x00 ∧ derivedFamily s ≠ 0x40 ∧ derivedFamily s ≠ 0x20
            ∧ derivedFamily s ≠ 0x02 ∧ derivedFamily s ≠ 0xBA)
        ∨ (derivedFamily s = 0x20
            ∧ ¬ (statusByte (afterIdRead s) &&& 0x3C = 0x0C
                  ∨ statusByte (afterIdRead s) &&& 0x3C = 0x14
                  ∨ statusByte (afterIdRead s) &&& 0x3C = 0x1C
                  ∨ statusByte (afterIdRead s) &&& 0x3C = 0x24
                  ∨ statusByte (afterIdRead s) &&& 0x3C = 0x2C
                  ∨ statusByte (afterIdRead s) &&& 0x3C = 0x34
                  ∨ statusByte (afterIdRead s) &&& 0x3C = 0x3C)))
    ∧ ((dataflash_probe_atmel d s).1 ≠ 0 → (dataflash_probe_atmel d s).1 = -1) := by
  refine ⟨by rw [read_dev_id_eq], fun st b => by rw [df_read_status_at45_eq],
    fun c buf n b hc => by rw [df_send_command_ok c buf n b hc], ?_, ?_⟩
  · by_cases hm : idByte s 0 = 0x1F ∨ idByte s 0 = 0x01 ∨ idByte s 0 = 0x20
    · rw [probe_supported d s hm, (df_desc_init_fail_iff d _ _).1]
      constructor
      · rintro (h | h)
        · exact Or.inr (Or.inl h)
        · exact Or.inr (Or.inr h)
      · rintro (⟨n1, n2, n3⟩ | h | h)
        · rcases hm with m | m | m
          · exact absurd m n1
          · exact absurd m n2
          · exact absurd m n3
        · exact Or.inl h
        · exact Or.inr h
    · have n1 : idByte s 0 ≠ 0x1F := fun e => hm (Or.inl e)
      have n2 : idByte s 0 ≠ 0x01 := fun e => hm (Or.inr (Or.inl e))
      have n3 : idByte s 0 ≠ 0x20 := fun e => hm (Or.inr (Or.inr e))
      rw [probe_unsupported d s n1 n2 n3]
      constructor
      · intro _
        exact Or.inl ⟨n1, n2, n3⟩
      · intro _
        simp
  · by_cases hm : idByte s 0 = 0x1F ∨ idByte s 0 = 0x01 ∨ idByte s 0 = 0x20
    · rw [probe_supported d s hm]
      exact (df_desc_init_fail_iff d _ _).2
    · have n1 : idByte s 0 ≠ 0x1F := fun e => hm (Or.inl e)
      have n2 : idByte s 0 ≠ 0x01 := fun e => hm (Or.inr (Or.inl e))
      have n3 : idByte s 0 ≠ 0x20 := fun e => hm (Or.inr (Or.inr e))
      rw [probe_unsupported d s n1 n2 n3]
      intro _
      rfl

/-- C21 on three failing ID responses (manufacturer `0xFF`; Atmel with family
`0x60`; Atmel AT45 with density bits `0x10`) and on one that succeeds. -/
theorem probe_failure_iff_witness :
    (dataflash_probe_atmel desc0 (busOf [0, 0xFF, 0x26])).1 = -1
    ∧ (dataflash_probe_atmel desc0 (busOf [0, 0x1F, 0x66])).1 = -1
    ∧ (dataflash_probe_atmel desc0 (busOf [0, 0x1F, 0x26, 0, 0, 0, 0, 0x90])).1 = -1
    ∧ ¬ ((dataflash_probe_atmel desc0 at45db161dProbeBus).1 ≠ 0) := by
  have f1 := probe_failure_iff desc0 (busOf [0, 0xFF, 0x26])
  have f2 := probe_failure_iff desc0 (busOf [0, 0x1F, 0x66])
  have f3 := probe_failure_iff desc0 (busOf [0, 0x1F, 0x26, 0, 0, 0, 0, 0x90])
  have f4 := probe_failure_iff desc0 at45db161dProbeBus
  refine ⟨?_, ?_, ?_, ?_⟩
  · exact f1.2.2.2.2 (f1.2.2.2.1.mpr (Or.inl (by decide)))
  · exact f2.2.2.2.2 (f2.2.2.2.1.mpr (Or.inr (Or.inl (by decide))))
  · exact f3.2.2.2.2 (f3.2.2.2.1.mpr (Or.inr (Or.inr (by decide))))
  · intro hne
    exact absurd (f4.2.2.2.1.mp hne) (by decide)

end Dataflash
